import Mathlib

/-!
# Verification of the monday.com column-value normalization engine

Shallow embedding of `MondayService.parse_value` and
`MondayService.parse_item_column_values` from `common/services/monday.py`,
together with `is_json` from `common/core/utils.py` and
`UNSUPPORTED_MONDAY_COLUMN_TYPES` from `common/services/constants.py`.

Modelling conventions:
* Python values that can appear in a column record (`json` payloads,
  parse results) are modelled by the inductive `PyVal`.  Python `float`
  is modelled by `Rat`; all claims touching float behaviour are settled
  on inputs where binary floating point arithmetic is exact.
* In-place mutation of the per-item column dictionary is modelled by
  explicit state passing: `parse_value` receives the column map and
  returns the updated map.  In CPython the map entry for a column id is
  the very dict object being parsed, so recursive resolution of a
  placeholder reference updates the map entry; the embedding performs
  the corresponding insertion after each recursive call.  (Mid-call
  aliasing of a column with its own map entry is observable only when a
  call chain revisits a column, which makes the Python code recurse
  without bound; the embedding runs out of fuel on exactly those
  inputs.)
* Unbounded recursion is modelled with an explicit fuel parameter;
  `PResult.nofuel` marks fuel exhaustion (in CPython: a
  `RecursionError` once the interpreter stack limit is hit).
* Python exceptions are modelled as `PResult.exn msg`.  Message texts
  are abbreviated except where the source inspects them (the
  `"float division by zero"` substring test in the formula handler).
* The external `simpleeval` library (`simple_eval`) is modelled on its
  arithmetic fragment (numeric literals, unary sign, `+ - * /`,
  parentheses), which is the fragment the verified claims exercise;
  everything outside that fragment is a model-level syntax error, as is
  every malformed expression in Python.
-/

namespace MondayNorm

/-- Python values as they occur in column records and JSON payloads.
`float` is modelled by `Rat` (exact-arithmetic model of IEEE doubles). -/
inductive PyVal where
  | none
  | bool (b : Bool)
  | int (n : Int)
  | float (q : Rat)
  | str (s : String)
  | list (xs : List PyVal)
  | dict (kvs : List (String × PyVal))

/-- Python truthiness (`bool(v)`). -/
def truthy : PyVal → Bool
  | .none => false
  | .bool b => b
  | .int n => n != 0
  | .float q => q != 0
  | .str s => s != ""
  | .list xs => !xs.isEmpty
  | .dict kvs => !kvs.isEmpty

/-! ## Character and string utilities

Python string primitives used by `parse_value`, modelled on `List Char`
and wrapped for `String`. -/

/-- The double-quote character (written by code point to keep quote
pairing unambiguous in the source of this file). -/
def dquoteChar : Char := Char.ofNat 34

/-- The single-quote character (written by code point likewise). -/
def squoteChar : Char := Char.ofNat 39

/-- Digit test for ASCII decimal digits. -/
def isDigitChar (c : Char) : Bool := c.isDigit

/-- `\w` word characters of the placeholder pattern (ASCII fragment). -/
def isWordChar (c : Char) : Bool := c.isAlpha || c.isDigit || c == '_'

/-- Python `str.strip()` whitespace (ASCII fragment). -/
def isPySpace (c : Char) : Bool :=
  c == ' ' || c == '\t' || c == '\n' || c == '\r' || c == '\x0b' || c == '\x0c'

/-- Python `str.strip()` on a character list. -/
def stripChars (l : List Char) : List Char :=
  ((l.dropWhile isPySpace).reverse.dropWhile isPySpace).reverse

/-- Python `str.strip()`. -/
def pyStrip (s : String) : String := String.mk (stripChars s.data)

/-- Value of a list of decimal digit characters. -/
def digitsVal (l : List Char) : Nat :=
  l.foldl (fun a c => a * 10 + (c.toNat - 48)) 0

/-- `int(s)` for Python: optional surrounding whitespace, optional sign,
one or more decimal digits.  (Underscore digit grouping is not
modelled.)  `Option.none` is a `ValueError`. -/
def pyIntOfString (s : String) : Option Int :=
  let t := stripChars s.data
  match t with
  | '-' :: ds => if ds ≠ [] && ds.all isDigitChar then some (-(digitsVal ds : Int)) else none
  | '+' :: ds => if ds ≠ [] && ds.all isDigitChar then some (digitsVal ds : Int) else none
  | ds => if ds ≠ [] && ds.all isDigitChar then some (digitsVal ds : Int) else none

/-- Fractional digits to a rational: `"25"` contributes `25/100`. -/
def fracVal (l : List Char) : Rat :=
  (digitsVal l : Rat) / ((10 : Rat) ^ l.length)

/-- Unsigned float body: `digits [. digits]` or `. digits`, with an
optional decimal exponent. -/
def pyFloatBody (l : List Char) : Option Rat :=
  let withExp (mant : Rat) (rest : List Char) : Option Rat :=
    match rest with
    | [] => some mant
    | e :: es =>
      if e == 'e' || e == 'E' then
        match es with
        | '-' :: ds => if ds ≠ [] && ds.all isDigitChar then some (mant / (10 : Rat) ^ digitsVal ds) else Option.none
        | '+' :: ds => if ds ≠ [] && ds.all isDigitChar then some (mant * (10 : Rat) ^ digitsVal ds) else Option.none
        | ds => if ds ≠ [] && ds.all isDigitChar then some (mant * (10 : Rat) ^ digitsVal ds) else Option.none
      else Option.none
  let intPart := l.takeWhile isDigitChar
  let rest := l.dropWhile isDigitChar
  match rest with
  | '.' :: rest2 =>
    let fracPart := rest2.takeWhile isDigitChar
    let rest3 := rest2.dropWhile isDigitChar
    if intPart = [] && fracPart = [] then Option.none
    else withExp ((digitsVal intPart : Rat) + fracVal fracPart) rest3
  | _ => if intPart = [] then Option.none else withExp (digitsVal intPart : Rat) rest

/-- `float(s)` for Python (finite decimal literals; `inf`/`nan` not
modelled).  `Option.none` is a `ValueError`. -/
def pyFloatOfString (s : String) : Option Rat :=
  match stripChars s.data with
  | '-' :: l => (pyFloatBody l).map (fun q => -q)
  | '+' :: l => pyFloatBody l
  | l => pyFloatBody l

/-- Decimal digits (without sign) of a natural number. -/
def natDigits (n : Nat) : String := toString n

/-- Model of `repr`/`str` for a Python float: exact on rationals whose
denominator divides a power of ten (the fragment exercised here); other
values are truncated to 17 fractional digits, standing in for the
shortest-roundtrip repr of CPython. -/
def floatRepr (q : Rat) : String :=
  if q.den = 1 then toString q.num ++ ".0"
  else
    let sign := if q < 0 then "-" else ""
    let a := |q|
    let ip := a.floor.toNat
    let frac := a - (ip : Rat)
    let digits :=
      (List.range 17).foldl
        (fun (st : Rat × List Char) _ =>
          let t := st.1 * 10
          let d := t.floor.toNat
          (t - (d : Rat), Char.ofNat (48 + d % 10) :: st.2))
        (frac, [])
    let ds := digits.2.reverse
    let dsTrimmed := (ds.reverse.dropWhile (· == '0')).reverse
    let dsFinal := if dsTrimmed = [] then ['0'] else dsTrimmed
    sign ++ natDigits ip ++ "." ++ String.mk dsFinal

/-- Model of Python `str(v)` (and, for list/dict elements, `repr(v)`).
Container and string reprs are simplified to the fragment needed for
formula substitution. -/
def pyToStr : PyVal → String
  | .none => "None"
  | .bool true => "True"
  | .bool false => "False"
  | .int n => toString n
  | .float q => floatRepr q
  | .str s => s
  | .list _ => "[...]"
  | .dict _ => "\x7b...\x7d"

/-- Substring test (`pat in s` for Python strings). -/
def containsSubstr (pat : String) (s : String) : Bool :=
  go pat.data s.data
where
  go (p : List Char) : List Char → Bool
    | [] => p.isPrefixOf []
    | c :: rest => p.isPrefixOf (c :: rest) || go p rest

/-- `str.replace(pat, repl)`: replace every non-overlapping occurrence,
scanning left to right.  Fuel-indexed so the definition reduces in the
kernel; every step consumes at least one character, so fuel equal to
the input length never runs out (the fuel-exhausted arm returns the
remainder unchanged and is unreachable from `pyReplace`). -/
def replaceAllCore (pat repl : List Char) : Nat → List Char → List Char
  | _, [] => []
  | 0, l => l
  | fuel + 1, c :: rest =>
    if pat.isPrefixOf (c :: rest) then
      repl ++ replaceAllCore pat repl fuel ((c :: rest).drop pat.length)
    else
      c :: replaceAllCore pat repl fuel rest

/-- `s.replace(pat, repl)` where `pat` is non-empty. -/
def pyReplace (s pat repl : String) : String :=
  match pat.data with
  | [] => s
  | p :: ps => String.mk (replaceAllCore (p :: ps) repl.data s.data.length s.data)

/-- Python `str.split(sep)` with a non-empty separator, scanning for
the leftmost occurrence; fuel-indexed for kernel reduction (fuel equal
to the input length suffices since every step consumes a
character). -/
def pySplitAux (sep : List Char) : Nat → List Char → List Char → List (List Char)
  | _, acc, [] => [acc.reverse]
  | 0, acc, l => [acc.reverse ++ l]
  | fuel + 1, acc, c :: rest =>
    if sep.isPrefixOf (c :: rest) then
      acc.reverse :: pySplitAux sep fuel [] ((c :: rest).drop sep.length)
    else
      pySplitAux sep fuel (c :: acc) rest

/-- `s.split(sep)` for a non-empty separator (the source always splits
on a comma-space). -/
def pySplit (s sep : String) : List String :=
  (pySplitAux sep.data s.data.length [] s.data).map String.mk

/-- `re.sub(pattern-backslashes-then-quote, backslash-quote, t)` from
the local helper `add_text`: every run of backslashes followed by a
single quote collapses to a single escaped quote; processed with a
count of pending backslashes. -/
def escQuotesCore : Nat → List Char → List Char
  | pending, [] => List.replicate pending '\\'
  | pending, c :: rest =>
    if c == '\\' then escQuotesCore (pending + 1) rest
    else if c == squoteChar then '\\' :: squoteChar :: escQuotesCore 0 rest
    else List.replicate pending '\\' ++ c :: escQuotesCore 0 rest

/-- The text normalization of `add_text`. -/
def escQuotes (s : String) : String := String.mk (escQuotesCore 0 s.data)

/-- `re.findall` of the placeholder pattern (brace, word characters,
brace): returns the list of captured words, scanning left to right.
Structural scanning one character at a time is faithful to the
non-overlapping regex scan because no occurrence of the pattern can
begin inside a completed match (word characters and the closing brace
never open a placeholder). -/
def findNamesCore : List Char → List String
  | [] => []
  | c :: rest =>
    if c == '\x7b' then
      let nm := rest.takeWhile isWordChar
      match rest.dropWhile isWordChar with
      | '\x7d' :: _ =>
        if nm ≠ [] then String.mk nm :: findNamesCore rest
        else findNamesCore rest
      | _ => findNamesCore rest
    else findNamesCore rest

/-- Placeholder extraction from a formula string. -/
def findNames (s : String) : List String := findNamesCore s.data

/-- Content scan of `remove_single_element_brackets`: starting after an
opening bracket and quote `q`, find the shortest content (characters
other than comma and closing bracket) terminated by `q` followed by a
closing bracket; returns the content and the remainder after the
closing bracket. -/
def rsebContent (q : Char) : List Char → Option (List Char × List Char)
  | [] => Option.none
  | c :: rest =>
    if c == q && rest.head? == some ']' then some ([], rest.tail)
    else if c == ',' || c == ']' then Option.none
    else (rsebContent q rest).map (fun p => (c :: p.1, p.2))

/-- `remove_single_element_brackets`: rewrite bracketed single-element
quoted literals to the bare quoted literal, scanning left to right.
Fuel-indexed for kernel reduction; every step consumes at least one
character, so fuel equal to the input length never runs out. -/
def rsebCore : Nat → List Char → List Char
  | _, [] => []
  | 0, l => l
  | fuel + 1, c :: rest =>
    if c == '[' then
      match rest with
      | [] => [c]
      | q :: rest2 =>
        if q == squoteChar || q == dquoteChar then
          match rsebContent q rest2 with
          | some p => q :: p.1 ++ q :: rsebCore fuel p.2
          | Option.none => c :: rsebCore fuel (q :: rest2)
        else c :: rsebCore fuel (q :: rest2)
    else c :: rsebCore fuel rest

/-- `remove_single_element_brackets` on strings. -/
def remove_single_element_brackets (s : String) : String :=
  String.mk (rsebCore s.data.length s.data)

/-- The operator-syntax normalization applied to a formula before
evaluation: single equals to double equals, then repair of compound
comparison operators. -/
def fixEquals (s : String) : String :=
  pyReplace (pyReplace (pyReplace (pyReplace s "=" "==") "<==" "<=") ">==" ">=") "!==" "!="

/-! ## JSON (`json.loads`)

A parser for the JSON grammar accepted by Python `json.loads` on the
payloads this engine receives (objects, arrays, strings, numbers,
`true`/`false`/`null`; the non-standard `NaN`/`Infinity` extensions are
not modelled).  Recursion is by fuel bounded by the input length. -/

/-- JSON whitespace. -/
def isJsonWs (c : Char) : Bool := c == ' ' || c == '\t' || c == '\n' || c == '\r'

/-- Skip JSON whitespace. -/
def skipWs (l : List Char) : List Char := l.dropWhile isJsonWs

/-- ASCII hexadecimal digit test. -/
def isHexChar (c : Char) : Bool :=
  c.isDigit || ('a' ≤ c && c ≤ 'f') || ('A' ≤ c && c ≤ 'F')

/-- Value of an ASCII hexadecimal digit. -/
def hexVal (c : Char) : Nat :=
  if c.isDigit then c.toNat - 48
  else if 'a' ≤ c then c.toNat - 87 else c.toNat - 55

/-- Decode of a two-character escape sequence of a JSON string. -/
def jsonEscChar (e : Char) : Option Char :=
  if e == dquoteChar then some dquoteChar
  else if e == '\\' then some '\\'
  else if e == '/' then some '/'
  else if e == 'n' then some '\n'
  else if e == 't' then some '\t'
  else if e == 'r' then some '\r'
  else if e == 'b' then some '\x08'
  else if e == 'f' then some '\x0c'
  else Option.none

/-- One JSON string body after the opening quote: returns the decoded
characters and the remainder after the closing quote.  Fuel-indexed
for kernel reduction; fuel equal to the input length never runs
out. -/
def jsonString : Nat → List Char → Option (List Char × List Char)
  | _, [] => Option.none
  | 0, _ => Option.none
  | fuel + 1, c :: rest =>
    if c == dquoteChar then some ([], rest)
    else if c == '\\' then
      match rest with
      | [] => Option.none
      | 'u' :: h1 :: h2 :: h3 :: h4 :: rest3 =>
        if isHexChar h1 && isHexChar h2 && isHexChar h3 && isHexChar h4 then
          (jsonString fuel rest3).map (fun p =>
            (Char.ofNat (((hexVal h1 * 16 + hexVal h2) * 16 + hexVal h3) * 16 + hexVal h4) :: p.1,
             p.2))
        else Option.none
      | e :: rest2 =>
        match jsonEscChar e with
        | some d => (jsonString fuel rest2).map (fun p => (d :: p.1, p.2))
        | Option.none => Option.none
    else if c.toNat < 32 then Option.none
    else (jsonString fuel rest).map (fun p => (c :: p.1, p.2))

/-- One JSON number starting at the current position: sign, integer
part, optional fraction and exponent.  Integers decode to `PyVal.int`,
anything with a fraction or exponent to `PyVal.float`. -/
def jsonNumber (l : List Char) : Option (PyVal × List Char) :=
  let (neg, l1) : Bool × List Char :=
    match l with
    | '-' :: r => (true, r)
    | _ => (false, l)
  let ip := l1.takeWhile isDigitChar
  let r1 := l1.dropWhile isDigitChar
  if ip = [] then Option.none
  else if ip.length > 1 && ip.head? == some '0' then Option.none
  else
    let (frac, r2) : Option (List Char) × List Char :=
      match r1 with
      | '.' :: r => (some (r.takeWhile isDigitChar), r.dropWhile isDigitChar)
      | _ => (Option.none, r1)
    match frac with
    | some [] => Option.none
    | _ =>
      let (expo, r3) : Option (Bool × List Char) × List Char :=
        match r2 with
        | 'e' :: '-' :: r => (some (true, r.takeWhile isDigitChar), r.dropWhile isDigitChar)
        | 'e' :: '+' :: r => (some (false, r.takeWhile isDigitChar), r.dropWhile isDigitChar)
        | 'e' :: r => (some (false, r.takeWhile isDigitChar), r.dropWhile isDigitChar)
        | 'E' :: '-' :: r => (some (true, r.takeWhile isDigitChar), r.dropWhile isDigitChar)
        | 'E' :: '+' :: r => (some (false, r.takeWhile isDigitChar), r.dropWhile isDigitChar)
        | 'E' :: r => (some (false, r.takeWhile isDigitChar), r.dropWhile isDigitChar)
        | _ => (Option.none, r2)
      match expo with
      | some (_, []) => Option.none
      | _ =>
        let mag : Rat :=
          (digitsVal ip : Rat) + (match frac with | some f => fracVal f | Option.none => 0)
        let mag : Rat :=
          match expo with
          | some (true, ds) => mag / (10 : Rat) ^ digitsVal ds
          | some (false, ds) => mag * (10 : Rat) ^ digitsVal ds
          | Option.none => mag
        let signed : Rat := if neg then -mag else mag
        if frac = Option.none && expo = Option.none then
          some (.int (if neg then -(digitsVal ip : Int) else (digitsVal ip : Int)), r3)
        else
          some (.float signed, r3)

mutual

/-- One JSON value (with fuel). -/
def jsonValue : Nat → List Char → Option (PyVal × List Char)
  | 0, _ => Option.none
  | fuel + 1, l =>
    match skipWs l with
    | [] => Option.none
    | c :: rest =>
      if c == dquoteChar then (jsonString (rest.length + 1) rest).map (fun p => (.str (String.mk p.1), p.2))
      else if c == '\x7b' then jsonMembers fuel (skipWs rest) true []
      else if c == '[' then jsonElements fuel (skipWs rest) true []
      else if c == 't' then
        match rest with
        | 'r' :: 'u' :: 'e' :: r => some (.bool true, r)
        | _ => Option.none
      else if c == 'f' then
        match rest with
        | 'a' :: 'l' :: 's' :: 'e' :: r => some (.bool false, r)
        | _ => Option.none
      else if c == 'n' then
        match rest with
        | 'u' :: 'l' :: 'l' :: r => some (.none, r)
        | _ => Option.none
      else jsonNumber (c :: rest)

/-- Members of a JSON object after the opening brace (or after a
comma); `first` marks that no member has been read yet. -/
def jsonMembers (fuel : Nat) (l : List Char) (first : Bool)
    (acc : List (String × PyVal)) : Option (PyVal × List Char) :=
  match fuel with
  | 0 => Option.none
  | fuel + 1 =>
    match l with
    | [] => Option.none
    | c :: rest =>
      if c == '\x7d' then (if first then some (.dict acc.reverse, rest) else Option.none)
      else if c == dquoteChar then
      match jsonString (rest.length + 1) rest with
      | Option.none => Option.none
      | some (key, r1) =>
        match skipWs r1 with
        | ':' :: r2 =>
          match jsonValue fuel r2 with
          | Option.none => Option.none
          | some (v, r3) =>
            match skipWs r3 with
            | ',' :: r4 => jsonMembers fuel (skipWs r4) false ((String.mk key, v) :: acc)
            | '\x7d' :: r4 => some (.dict (((String.mk key, v) :: acc).reverse), r4)
            | _ => Option.none
        | _ => Option.none
      else Option.none

/-- Elements of a JSON array after the opening bracket (or comma). -/
def jsonElements (fuel : Nat) (l : List Char) (first : Bool)
    (acc : List PyVal) : Option (PyVal × List Char) :=
  match fuel with
  | 0 => Option.none
  | fuel + 1 =>
    match l with
    | ']' :: rest => if first then some (.list acc.reverse, rest) else Option.none
    | _ =>
      match jsonValue fuel l with
      | Option.none => Option.none
      | some (v, r1) =>
        match skipWs r1 with
        | ',' :: r2 => jsonElements fuel (skipWs r2) false (v :: acc)
        | ']' :: r2 => some (.list ((v :: acc).reverse), r2)
        | _ => Option.none

end

/-- `json.loads(s)`: parse one JSON document, requiring only trailing
whitespace after it.  `Option.none` models the `ValueError`
(`JSONDecodeError`) raised by Python. -/
def json_loads (s : String) : Option PyVal :=
  match jsonValue (s.data.length + 1) s.data with
  | some (v, rest) => if skipWs rest = [] then some v else Option.none
  | Option.none => Option.none

/-- `is_json` from `common/core/utils.py`: false for falsy or non-string
values, otherwise whether `json.loads` succeeds. -/
def is_json : PyVal → Bool
  | .str s => s != "" && (json_loads s).isSome
  | _ => false

/-! ## Naive datetimes (`datetime.strptime` / `strftime`)

Model of the two fixed-format round trips performed by `parse_value`:
parse a naive timestamp, stamp it as UTC, re-render with a `+0000`
offset.  Only the format strings appearing in the source are
modelled. -/

/-- A naive datetime as validated by `datetime.strptime`. -/
structure PyDateTime where
  year : Nat
  month : Nat
  day : Nat
  hour : Nat
  minute : Nat
  second : Nat

/-- Gregorian leap-year test. -/
def isLeap (y : Nat) : Bool := (y % 4 = 0 && y % 100 ≠ 0) || y % 400 = 0

/-- Days in a month. -/
def daysInMonth (y m : Nat) : Nat :=
  if m = 2 then (if isLeap y then 29 else 28)
  else if m = 4 || m = 6 || m = 9 || m = 11 then 30 else 31

/-- `datetime` range validation. -/
def validDateTime (d : PyDateTime) : Bool :=
  1 ≤ d.year && d.year ≤ 9999 && 1 ≤ d.month && d.month ≤ 12 &&
  1 ≤ d.day && d.day ≤ daysInMonth d.year d.month &&
  d.hour < 24 && d.minute < 60 && d.second < 60

/-- Read exactly `n` decimal digits. -/
def readDigits (n : Nat) (l : List Char) : Option (Nat × List Char) :=
  let ds := l.take n
  if ds.length = n && ds.all isDigitChar then some (digitsVal ds, l.drop n) else Option.none

/-- Expect one literal character. -/
def expectChar (c : Char) (l : List Char) : Option (List Char) :=
  match l with
  | d :: rest => if d == c then some rest else Option.none
  | [] => Option.none

/-- Core of `strptime(s, date-time format)`: digits in the shape
`YYYY-MM-DD HH:MM:SS`, then range validation.  (CPython also accepts
unpadded fields; the payloads this engine receives are padded.)
Returns the datetime and the unconsumed remainder. -/
def strptimeCore (l : List Char) : Option (PyDateTime × List Char) :=
  match readDigits 4 l with
  | Option.none => Option.none
  | some (y, r1) =>
  match expectChar '-' r1 with
  | Option.none => Option.none
  | some r2 =>
  match readDigits 2 r2 with
  | Option.none => Option.none
  | some (mo, r3) =>
  match expectChar '-' r3 with
  | Option.none => Option.none
  | some r4 =>
  match readDigits 2 r4 with
  | Option.none => Option.none
  | some (d, r5) =>
  match expectChar ' ' r5 with
  | Option.none => Option.none
  | some r6 =>
  match readDigits 2 r6 with
  | Option.none => Option.none
  | some (h, r7) =>
  match expectChar ':' r7 with
  | Option.none => Option.none
  | some r8 =>
  match readDigits 2 r8 with
  | Option.none => Option.none
  | some (mi, r9) =>
  match expectChar ':' r9 with
  | Option.none => Option.none
  | some r10 =>
  match readDigits 2 r10 with
  | Option.none => Option.none
  | some (sec, r11) =>
    let dt : PyDateTime := ⟨y, mo, d, h, mi, sec⟩
    if validDateTime dt then some (dt, r11) else Option.none

/-- `datetime.strptime(s, date-time format)`: the whole string must be
consumed.  `Option.none` is the `ValueError`. -/
def strptimeYmdHms (s : String) : Option PyDateTime :=
  match strptimeCore s.data with
  | some (dt, []) => some dt
  | _ => Option.none

/-- `datetime.strptime(s, date-time format with %Z)`: as above followed
by a space and a timezone name.  CPython accepts a limited set of
names; the payloads carry `UTC` (the model also accepts `GMT`). -/
def strptimeYmdHmsZ (s : String) : Option PyDateTime :=
  match strptimeCore s.data with
  | some (dt, rest) =>
    if rest = " UTC".data || rest = " GMT".data then some dt else Option.none
  | Option.none => Option.none

/-- Zero-padded decimal rendering. -/
def padNat (width n : Nat) : String :=
  let s := toString n
  String.mk (List.replicate (width - s.length) '0') ++ s

/-- `strftime` of a UTC-stamped datetime with the `+0000` offset format
used by `parse_value`. -/
def strftimeUtc (d : PyDateTime) : String :=
  padNat 4 d.year ++ "-" ++ padNat 2 d.month ++ "-" ++ padNat 2 d.day ++ " " ++
  padNat 2 d.hour ++ ":" ++ padNat 2 d.minute ++ ":" ++ padNat 2 d.second ++ " +0000"

/-! ## `simple_eval` (external `simpleeval` library)

Model of the expression evaluation performed by the `simpleeval`
library on the arithmetic fragment exercised by the verified claims:
integer and float literals, unary sign, `+ - * /` and parentheses.
Expressions outside the fragment (names, calls into the function table,
comparisons, strings, stray backslashes, ...) evaluate to a model-level
syntax error; in Python these either raise a `SyntaxError` or use
features no verified claim depends on.  Division follows Python true
division: dividing by integer zero raises with message
`"division by zero"`, while any division involving a float zero
divisor raises with message `"float division by zero"` — the handler
in `parse_value` distinguishes the two by substring. -/

/-- `dropWhile` never lengthens a list (termination helper). -/
theorem dropWhileLenLe (p : Char → Bool) (l : List Char) :
    (l.dropWhile p).length ≤ l.length := by
  induction l with
  | nil => simp [List.dropWhile]
  | cons c rest ih =>
    simp only [List.dropWhile]
    split
    · exact Nat.le_succ_of_le ih
    · exact Nat.le_refl _

/-- Evaluator tokens. -/
inductive EvTok where
  | num (v : PyVal)
  | plus
  | minus
  | star
  | slash
  | lpar
  | rpar

/-- Tokenizer for the arithmetic fragment.  Fuel-indexed for kernel
reduction; fuel equal to the input length never runs out. -/
def evTokenize : Nat → List Char → Option (List EvTok)
  | _, [] => some []
  | 0, _ => Option.none
  | fuel + 1, c :: rest =>
    if c == ' ' || c == '\t' then evTokenize fuel rest
    else if c == '+' then (evTokenize fuel rest).map (.plus :: ·)
    else if c == '-' then (evTokenize fuel rest).map (.minus :: ·)
    else if c == '*' then (evTokenize fuel rest).map (.star :: ·)
    else if c == '/' then (evTokenize fuel rest).map (.slash :: ·)
    else if c == '(' then (evTokenize fuel rest).map (.lpar :: ·)
    else if c == ')' then (evTokenize fuel rest).map (.rpar :: ·)
    else if isDigitChar c || c == '.' then
      let body := (c :: rest).takeWhile (fun d => isDigitChar d || d == '.')
      let rest2 := (c :: rest).dropWhile (fun d => isDigitChar d || d == '.')
      if body.all isDigitChar then
        (evTokenize fuel rest2).map (.num (.int (digitsVal body)) :: ·)
      else
        match pyFloatBody body with
        | some q => (evTokenize fuel rest2).map (.num (.float q) :: ·)
        | Option.none => Option.none
    else Option.none

/-- Python numeric addition on the modelled values. -/
def evAdd : PyVal → PyVal → Except String PyVal
  | .int a, .int b => .ok (.int (a + b))
  | .int a, .float b => .ok (.float ((a : Rat) + b))
  | .float a, .int b => .ok (.float (a + (b : Rat)))
  | .float a, .float b => .ok (.float (a + b))
  | _, _ => .error "TypeError: unsupported operand type(s)"

/-- Python numeric subtraction. -/
def evSub : PyVal → PyVal → Except String PyVal
  | .int a, .int b => .ok (.int (a - b))
  | .int a, .float b => .ok (.float ((a : Rat) - b))
  | .float a, .int b => .ok (.float (a - (b : Rat)))
  | .float a, .float b => .ok (.float (a - b))
  | _, _ => .error "TypeError: unsupported operand type(s)"

/-- Python numeric multiplication. -/
def evMul : PyVal → PyVal → Except String PyVal
  | .int a, .int b => .ok (.int (a * b))
  | .int a, .float b => .ok (.float ((a : Rat) * b))
  | .float a, .int b => .ok (.float (a * (b : Rat)))
  | .float a, .float b => .ok (.float (a * b))
  | _, _ => .error "TypeError: unsupported operand type(s)"

/-- Python true division, with the two distinct zero-division
messages. -/
def evDiv : PyVal → PyVal → Except String PyVal
  | .int a, .int b =>
    if b = 0 then .error "division by zero" else .ok (.float ((a : Rat) / (b : Rat)))
  | .int a, .float b =>
    if b = 0 then .error "float division by zero" else .ok (.float ((a : Rat) / b))
  | .float a, .int b =>
    if b = 0 then .error "float division by zero" else .ok (.float (a / (b : Rat)))
  | .float a, .float b =>
    if b = 0 then .error "float division by zero" else .ok (.float (a / b))
  | _, _ => .error "TypeError: unsupported operand type(s)"

/-- Python unary minus. -/
def evNeg : PyVal → Except String PyVal
  | .int a => .ok (.int (-a))
  | .float a => .ok (.float (-a))
  | _ => .error "TypeError: bad operand type for unary -"

/-- Python unary plus. -/
def evPos : PyVal → Except String PyVal
  | .int a => .ok (.int a)
  | .float a => .ok (.float a)
  | _ => .error "TypeError: bad operand type for unary +"

mutual

/-- Additive level of the recursive-descent evaluator. -/
def evExpr : Nat → List EvTok → Except String (PyVal × List EvTok)
  | 0, _ => .error "invalid syntax"
  | fuel + 1, ts =>
    match evTerm fuel ts with
    | .error e => .error e
    | .ok (v, rest) => evExprTail fuel v rest

/-- Left-associated chain of `+`/`-`. -/
def evExprTail : Nat → PyVal → List EvTok → Except String (PyVal × List EvTok)
  | 0, _, _ => .error "invalid syntax"
  | fuel + 1, acc, ts =>
    match ts with
    | .plus :: rest =>
      match evTerm fuel rest with
      | .error e => .error e
      | .ok (v, rest2) =>
        match evAdd acc v with
        | .error e => .error e
        | .ok w => evExprTail fuel w rest2
    | .minus :: rest =>
      match evTerm fuel rest with
      | .error e => .error e
      | .ok (v, rest2) =>
        match evSub acc v with
        | .error e => .error e
        | .ok w => evExprTail fuel w rest2
    | _ => .ok (acc, ts)

/-- Multiplicative level. -/
def evTerm : Nat → List EvTok → Except String (PyVal × List EvTok)
  | 0, _ => .error "invalid syntax"
  | fuel + 1, ts =>
    match evFactor fuel ts with
    | .error e => .error e
    | .ok (v, rest) => evTermTail fuel v rest

/-- Left-associated chain of `*`/`/`. -/
def evTermTail : Nat → PyVal → List EvTok → Except String (PyVal × List EvTok)
  | 0, _, _ => .error "invalid syntax"
  | fuel + 1, acc, ts =>
    match ts with
    | .star :: rest =>
      match evFactor fuel rest with
      | .error e => .error e
      | .ok (v, rest2) =>
        match evMul acc v with
        | .error e => .error e
        | .ok w => evTermTail fuel w rest2
    | .slash :: rest =>
      match evFactor fuel rest with
      | .error e => .error e
      | .ok (v, rest2) =>
        match evDiv acc v with
        | .error e => .error e
        | .ok w => evTermTail fuel w rest2
    | _ => .ok (acc, ts)

/-- Unary level and atoms. -/
def evFactor : Nat → List EvTok → Except String (PyVal × List EvTok)
  | 0, _ => .error "invalid syntax"
  | fuel + 1, ts =>
    match ts with
    | .minus :: rest =>
      match evFactor fuel rest with
      | .error e => .error e
      | .ok (v, rest2) =>
        match evNeg v with
        | .error e => .error e
        | .ok w => .ok (w, rest2)
    | .plus :: rest =>
      match evFactor fuel rest with
      | .error e => .error e
      | .ok (v, rest2) =>
        match evPos v with
        | .error e => .error e
        | .ok w => .ok (w, rest2)
    | .num v :: rest => .ok (v, rest)
    | .lpar :: rest =>
      match evExpr fuel rest with
      | .error e => .error e
      | .ok (v, rest2) =>
        match rest2 with
        | .rpar :: rest3 => .ok (v, rest3)
        | _ => .error "invalid syntax"
    | _ => .error "invalid syntax"

end

/-- Model of `simple_eval(expr, functions=...)` on the arithmetic
fragment (the function table is never consulted by expressions in this
fragment). -/
def simple_eval (s : String) : Except String PyVal :=
  match evTokenize s.data.length s.data with
  | Option.none => .error "invalid syntax"
  | some ts =>
    match evExpr (ts.length + s.data.length + 1) ts with
    | .error e => .error e
    | .ok (v, []) => .ok v
    | .ok (_, _ :: _) => .error "invalid syntax"

/-- Sorted insertion for the median computation. -/
def insertSorted (x : Rat) : List Rat → List Rat
  | [] => [x]
  | y :: ys => if x ≤ y then x :: y :: ys else y :: insertSorted x ys

/-- Ascending insertion sort (model of the sort inside
`statistics.median`). -/
def sortRats (l : List Rat) : List Rat := l.foldr insertSorted []

/-- `statistics.median` on a non-empty list of floats: middle element
for odd length, mean of the two middle elements for even length.  (The
`getD` defaults are unreachable for the non-empty lists this is
applied to.) -/
def ratMedian (l : List Rat) : Rat :=
  let s := sortRats l
  let n := s.length
  if n % 2 = 1 then (s.get? (n / 2)).getD 0
  else (((s.get? (n / 2 - 1)).getD 0) + ((s.get? (n / 2)).getD 0)) / 2

/-! ## Column records and the column map

`RawColumn` dict shape as consumed by `parse_value`:
`id`, `type`, `text` (string or `None`), `value` (arbitrary payload),
`column` (with `title` and optional `settings_str`), plus the optional
keys `display_value`, `checked` and `mirrored_items` (`Option.none`
models key absence, matching the membership tests and `.get` calls of
the source). -/

/-- The nested `column` record (`ColumnDetails`). -/
structure ColumnDetails where
  title : String
  settings_str : Option String

/-- One raw column-value record. -/
structure Column where
  id : String
  type : String
  text : Option String
  value : PyVal
  column : ColumnDetails
  display_value : Option PyVal
  checked : Option PyVal
  mirrored_items : Option PyVal

/-- The per-item column map `column_values_by_column_id`, as an
insertion-ordered association list (Python `dict` semantics: update in
place on existing key, append otherwise). -/
abbrev ColMap := List (String × Column)

/-- `dict.get` on the column map. -/
def mfind : ColMap → String → Option Column
  | [], _ => Option.none
  | (k, c) :: rest, key => if k == key then some c else mfind rest key

/-- `dict` assignment on the column map. -/
def minsert : ColMap → String → Column → ColMap
  | [], k, c => [(k, c)]
  | (k2, c2) :: rest, k, c =>
    if k2 == k then (k2, c) :: rest else (k2, c2) :: minsert rest k c

/-- Result of one `parse_value` call: the parsed column together with
the updated column map, a propagating Python exception, or fuel
exhaustion (unbounded recursion). -/
inductive PResult where
  | ok (c : Column) (m : ColMap)
  | exn (e : String)
  | nofuel

/-- Write the `value` field (`column["value"] = v`). -/
def setVal (c : Column) (v : PyVal) : Column := { c with value := v }

/-- `column["text"]` as a value (`None` or the string). -/
def textVal : Option String → PyVal
  | Option.none => .none
  | some s => .str s

/-- Python `v[k]` with a string key. -/
def pySubscript (v : PyVal) (k : String) : Except String PyVal :=
  match v with
  | .dict kvs =>
    match kvs.find? (fun p => p.1 == k) with
    | some p => .ok p.2
    | Option.none => .error ("KeyError: " ++ k)
  | .none => .error "TypeError: NoneType object is not subscriptable"
  | _ => .error "TypeError: object is not subscriptable by string"

/-- Python `k in v` with a string needle (dict: key membership; list:
element equality, which for a string needle only a string element can
satisfy; string: substring). -/
def pyContains (v : PyVal) (k : String) : Except String Bool :=
  match v with
  | .dict kvs => .ok (kvs.any (fun p => p.1 == k))
  | .list xs => .ok (xs.any (fun x => match x with | .str s => s == k | _ => false))
  | .str s => .ok (containsSubstr k s)
  | _ => .error "TypeError: argument is not iterable"

/-- Python `v.get(k)` on a decoded settings object. -/
def dictGetOpt (v : PyVal) (k : String) : Except String (Option PyVal) :=
  match v with
  | .dict kvs => .ok ((kvs.find? (fun p => p.1 == k)).map (fun p => p.2))
  | _ => .error "AttributeError: object has no attribute get"

/-- Python dict assignment `d[k] = v` on a decoded payload. -/
def dictSet (kvs : List (String × PyVal)) (k : String) (v : PyVal) :
    List (String × PyVal) :=
  if kvs.any (fun p => p.1 == k) then
    kvs.map (fun p => if p.1 == k then (k, v) else p)
  else kvs ++ [(k, v)]

/-- The local helper `add_text(col, text)`: assign the
quote-normalized text into the linked-item record. -/
def add_text (item : PyVal) (seg : String) : Except String PyVal :=
  match item with
  | .dict kvs => .ok (.dict (dictSet kvs "text" (.str (escQuotes seg))))
  | _ => .error "TypeError: item does not support item assignment"

/-- The zipped comprehension over linked items when the column `text`
is truthy: pair item `index` with segment `index` of the comma-split
text (`IndexError` when the text has fewer segments). -/
def zipWithSegs (segs : List String) (idx : Nat) : List PyVal → Except String (List PyVal)
  | [] => .ok []
  | it :: rest =>
    match segs.get? idx with
    | Option.none => .error "IndexError: list index out of range"
    | some seg =>
      match add_text it seg with
      | .error e => .error e
      | .ok it2 =>
        match zipWithSegs segs (idx + 1) rest with
        | .error e => .error e
        | .ok rest2 => .ok (it2 :: rest2)

/-- The link-list comprehension of the dependency/board-relation/
subtasks branch: items are annotated with text segments only when
`column["text"]` is truthy. -/
def zipSegments (text : Option String) (items : List PyVal) :
    Except String (List PyVal) :=
  match text with
  | some s => if s ≠ "" then zipWithSegs (pySplit s ", ") 0 items else .ok items
  | Option.none => .ok items

/-- The JSON pre-decode step
(`if is_json(column["value"]): column["value"] = json.loads(...)`). -/
def preDecode (c : Column) : Column :=
  match c.value with
  | .str s =>
    if s ≠ "" then
      match json_loads s with
      | some j => setVal c j
      | Option.none => c
    else c
  | _ => c

/-- Types excluded from the early passthrough guard.  The source lists
`"votes"`, which matches no branch of the dispatch (the vote branch
tests `"vote"`). -/
def guardTypes : List String := ["votes", "formula", "mirror"]

/-- The early passthrough guard: falsy `value`, empty-or-`None` `text`,
type not in `guardTypes`. -/
def guardCond (c : Column) : Bool :=
  !truthy c.value && (c.text == some "" || c.text == (Option.none : Option String)) &&
  !guardTypes.contains c.type

/-- `v == "null"` for the display-value sentinel comparison (only a
string can compare equal). -/
def isNullStr : PyVal → Bool
  | .str s => s == "null"
  | _ => false

/-- `replacement_value in [None, "", "null"]`. -/
def inNullList : PyVal → Bool
  | .none => true
  | .str s => s == "" || s == "null"
  | _ => false

/-- The per-reference replacement value of the substitution loop:
mirror references substitute their aggregated display value, text
references are wrapped in escaped double quotes, null-ish values
substitute as `0`. -/
def replacementValue (fc : Column) : Except String PyVal :=
  let step : Except String PyVal :=
    if fc.type == "mirror" then pySubscript fc.value "display_value"
    else if fc.type == "text" then .ok (.str ("\\\"" ++ pyToStr fc.value ++ "\\\""))
    else .ok fc.value
  match step with
  | .error e => .error e
  | .ok rv => .ok (if inNullList rv then .int 0 else rv)

/-- Result of the placeholder-substitution loop: the substituted
formula string with the updated map; an abort (a referenced id missing
from the map); a propagating exception; or fuel exhaustion from the
recursive `parse_value` call. -/
inductive SubstRes where
  | done (f : String) (m : ColMap)
  | abort (m : ColMap)
  | exn (e : String)
  | nofuel

/-- The substitution loop `for column_name in column_names`: resolve
each referenced column through the recursive parser `pv`, write the
parsed record back into the map (dict aliasing in the source), and
replace both the `#Labels`-suffixed and the plain placeholder by the
rendered replacement value. -/
def substLoop (pv : Column → ColMap → PResult) :
    List String → String → ColMap → SubstRes
  | [], f, m => .done f m
  | nm :: rest, f, m =>
    match mfind m nm with
    | Option.none => .abort m
    | some fc =>
      match pv fc m with
      | .nofuel => .nofuel
      | .exn e => .exn e
      | .ok fc2 m2 =>
        match replacementValue fc2 with
        | .error e => .exn e
        | .ok rv =>
          let rvStr := pyToStr rv
          let f2 := pyReplace (pyReplace f ("\x7b" ++ nm ++ "\x7d#Labels") rvStr)
            ("\x7b" ++ nm ++ "\x7d") rvStr
          substLoop pv rest f2 (minsert m2 nm fc2)

/-- After the substitution loop: normalize operator syntax, collapse
single-element bracket literals, evaluate, and apply the
exception policy of the `try`/`except` block — a message containing
`"float division by zero"` yields `0`, any other evaluation error is
logged and leaves the previously assigned display sentinel in place.
An abort returns the column (with the display sentinel already
assigned); exceptions and fuel exhaustion propagate. -/
def finishFormula (c : Column) : SubstRes → PResult
  | .done f m =>
    match simple_eval (remove_single_element_brackets (fixEquals f)) with
    | .ok v => .ok (setVal c v) m
    | .error e =>
      if containsSubstr "float division by zero" e then .ok (setVal c (.int 0)) m
      else .ok c m
  | .abort m => .ok c m
  | .exn e => .exn e
  | .nofuel => .nofuel

/-- Settings analysis of the formula branch: extract the formula text
from `settings_str` and its placeholder names.  `.error` models a
raised exception; `.ok Option.none` models every early
`return column` of the source (missing or falsy `settings_str`,
missing or falsy `formula`, no placeholders); `.ok (some (fs, names))`
carries the formula text and its non-empty placeholder list into the
substitution loop. -/
def formulaPlan (c : Column) : Except String (Option (String × List String)) :=
  match c.column.settings_str with
  | Option.none => .ok Option.none
  | some s =>
    if s == "" then .ok Option.none
    else
      match json_loads s with
      | Option.none => .error "ValueError: invalid JSON in settings_str"
      | some sv =>
        match dictGetOpt sv "formula" with
        | .error e => .error e
        | .ok Option.none => .ok Option.none
        | .ok (some fv) =>
          if !truthy fv then .ok Option.none
          else
            match fv with
            | .str fs =>
              match findNames fs with
              | [] => .ok Option.none
              | nm :: names => .ok (some (fs, nm :: names))
            | _ => .error "TypeError: expected string or bytes-like object"

/-- The formula branch (`column["type"] == "formula" and "display_value"
in column`): assign the display value; keep it unless it is the
`"null"` sentinel; otherwise extract the formula and placeholders,
substitute and evaluate. -/
def formulaBranch (pv : Column → ColMap → PResult) (c : Column) (m : ColMap) :
    PResult :=
  match c.display_value with
  | Option.none => .ok c m
  | some dv =>
    let c2 := setVal c dv
    if !isNullStr dv then .ok c2 m
    else
      match formulaPlan c with
      | .error e => .exn e
      | .ok Option.none => .ok c2 m
      | .ok (some (fs, names)) => finishFormula c2 (substLoop pv names fs m)

/-- `settings_str or "{}"` of the mirror branch. -/
def mirrorSettingsStr (c : Column) : String :=
  match c.column.settings_str with
  | some s => if s == "" then "\x7b\x7d" else s
  | Option.none => "\x7b\x7d"

/-- `column["display_value"].split(", ")` of the mirror branch:
`KeyError` when the key is absent, `AttributeError` when the value has
no `split`. -/
def displayTokens (dv : Option PyVal) : Except String (List String) :=
  match dv with
  | Option.none => .error "KeyError: display_value"
  | some (.str s) => .ok (pySplit s ", ")
  | some _ => .error "AttributeError: object has no attribute split"

/-- `float(v.strip()) for v in values if v.strip()`: the float-coerced
non-blank tokens, raising on a malformed token. -/
def floatsOf (tokens : List String) : Except String (List Rat) :=
  match (tokens.filter (fun v => pyStrip v ≠ "")).mapM
      (fun v => pyFloatOfString (pyStrip v)) with
  | some qs => .ok qs
  | Option.none => .error "ValueError: could not convert string to float"

/-- The `evaluated_value` chain of the mirror branch: dispatch on the
configured aggregation function over the comma-split `display_value`;
with no recognized function, pass `column.get("display_value")`
through.  Python `sum` of an empty generator is integer `0`;
`average` divides by the length of the full token list. -/
def mirror_aggregate (fnOpt : Option PyVal) (dv : Option PyVal) :
    Except String PyVal :=
  let fnIs (nm : String) : Bool :=
    match fnOpt with
    | some (.str f) => f == nm
    | _ => false
  if fnIs "sum" then
    match displayTokens dv with
    | .error e => .error e
    | .ok tokens =>
      match floatsOf tokens with
      | .error e => .error e
      | .ok [] => .ok (.int 0)
      | .ok (q :: qs) => .ok (.float ((q :: qs).foldl (· + ·) 0))
  else if fnIs "average" then
    match displayTokens dv with
    | .error e => .error e
    | .ok tokens =>
      match floatsOf tokens with
      | .error e => .error e
      | .ok qs => .ok (.float ((qs.foldl (· + ·) 0) / (tokens.length : Rat)))
  else if fnIs "min" then
    match displayTokens dv with
    | .error e => .error e
    | .ok tokens =>
      match floatsOf tokens with
      | .error e => .error e
      | .ok [] => .error "ValueError: min() iterable argument is empty"
      | .ok (q :: qs) => .ok (.float (qs.foldl min q))
  else if fnIs "max" then
    match displayTokens dv with
    | .error e => .error e
    | .ok tokens =>
      match floatsOf tokens with
      | .error e => .error e
      | .ok [] => .error "ValueError: max() iterable argument is empty"
      | .ok (q :: qs) => .ok (.float (qs.foldl max q))
  else if fnIs "count" then
    match displayTokens dv with
    | .error e => .error e
    | .ok tokens => .ok (.int tokens.length)
  else if fnIs "median" then
    match displayTokens dv with
    | .error e => .error e
    | .ok tokens =>
      match floatsOf tokens with
      | .error e => .error e
      | .ok [] => .error "StatisticsError: no median for empty data"
      | .ok (q :: qs) => .ok (.float (ratMedian (q :: qs)))
  else
    .ok (match dv with | some v => v | Option.none => .none)

/-- The mirror branch: decode `settings_str` (defaulted to the empty
object when falsy), read the aggregation function, aggregate the
comma-split `display_value` tokens, and build the output object with
the `mirrored_items` default. -/
def mirrorBranch (c : Column) : Except String (Option PyVal) :=
  match json_loads (mirrorSettingsStr c) with
  | Option.none => .error "ValueError: invalid JSON in settings_str"
  | some sv =>
    match dictGetOpt sv "function" with
    | .error e => .error e
    | .ok fnOpt =>
      match mirror_aggregate fnOpt c.display_value with
      | .error e => .error e
      | .ok ev =>
        .ok (some (.dict
          [("display_value", ev),
           ("mirrored_items",
            match c.mirrored_items with | some v => v | Option.none => .list [])]))

/-- The type dispatch for every branch that leaves the column map
untouched.  `Except.error` is a raised exception; `.ok Option.none`
leaves `value` unchanged (no assignment); `.ok (some v)` is the
assignment `column["value"] = v`.  The branches appear in the `elif`
order of the source (all tests are mutually exclusive string
comparisons). -/
def simpleBranch (c : Column) : Except String (Option PyVal) :=
  if c.type == "rating" || c.type == "auto_number" then
    match c.text with
    | Option.none => .error "TypeError: int() argument must be a string"
    | some s =>
      match pyIntOfString s with
      | some n => .ok (some (.int n))
      | Option.none => .error "ValueError: invalid literal for int() with base 10"
  else if c.type == "vote" then
    match c.text with
    | Option.none => .error "TypeError: object of type NoneType has no len()"
    | some s =>
      if s.length > 0 then
        match pyIntOfString s with
        | some n => .ok (some (.int n))
        | Option.none => .error "ValueError: invalid literal for int() with base 10"
      else .ok (some (.int 0))
  else if c.type == "checkbox" then
    match c.checked with
    | some v => .ok (some v)
    | Option.none =>
      match pySubscript c.value "checked" with
      | .error e => .error e
      | .ok v => .ok (some (.bool (pyToStr v == "true")))
  else if c.type == "date" then
    match pyContains c.value "time" with
    | .error e => .error e
    | .ok b =>
      if b then
        match pySubscript c.value "time" with
        | .error e => .error e
        | .ok tv =>
          if truthy tv then
            match pySubscript c.value "date" with
            | .error e => .error e
            | .ok dv =>
              match strptimeYmdHms (pyToStr dv ++ " " ++ pyToStr tv) with
              | some dt => .ok (some (.str (strftimeUtc dt)))
              | Option.none => .error "ValueError: time data does not match format"
          else .ok (some (textVal c.text))
      else .ok (some (textVal c.text))
  else if c.type == "dependency" || c.type == "board_relation" || c.type == "subtasks" then
    match c.value with
    | .none => .ok Option.none
    | v =>
      match pyContains v "linkedPulseIds" with
      | .error e => .error e
      | .ok b =>
        if b then
          match pySubscript v "linkedPulseIds" with
          | .error e => .error e
          | .ok (.list items) =>
            match zipSegments c.text items with
            | .error e => .error e
            | .ok items2 => .ok (some (.list items2))
          | .ok _ => .error "TypeError: linkedPulseIds is not an array (model restriction)"
        else .ok (some (.list []))
  else if c.type == "dropdown" || c.type == "tags" then
    match c.text with
    | some s =>
      if s ≠ "" then .ok (some (.list ((pySplit s ", ").map PyVal.str)))
      else .ok (some (.str s))
    | Option.none => .ok (some .none)
  else if c.type == "people" then
    match c.value with
    | .none => .ok Option.none
    | v =>
      match pySubscript v "personsAndTeams" with
      | .error e => .error e
      | .ok (.list items) =>
        match items with
        | [] => .ok (some (.list []))
        | _ :: _ =>
          match c.text with
          | Option.none => .error "AttributeError: NoneType object has no attribute split"
          | some s =>
            match zipWithSegs (pySplit s ", ") 0 items with
            | .error e => .error e
            | .ok items2 => .ok (some (.list items2))
      | .ok _ => .error "TypeError: personsAndTeams is not an array (model restriction)"
  else if c.type == "file" then
    match pySubscript c.value "files" with
    | .error e => .error e
    | .ok v => .ok (some v)
  else if c.type == "link" then
    match pySubscript c.value "url" with
    | .error e => .error e
    | .ok v => .ok (some v)
  else if c.type == "numbers" then
    match c.text with
    | Option.none => .error "TypeError: argument of type NoneType is not iterable"
    | some s =>
      if containsSubstr "." s then
        match pyFloatOfString s with
        | some q => .ok (some (.float q))
        | Option.none => .error "ValueError: could not convert string to float"
      else if s ≠ "" then
        match pyIntOfString s with
        | some n => .ok (some (.int n))
        | Option.none => .error "ValueError: invalid literal for int() with base 10"
      else .ok (some (.int 0))
  else if c.type == "creation_log" || c.type == "last_updated" then
    match c.text with
    | Option.none => .error "TypeError: strptime() argument 1 must be str"
    | some s =>
      match strptimeYmdHmsZ s with
      | some dt => .ok (some (.str (strftimeUtc dt)))
      | Option.none => .error "ValueError: time data does not match format"
  else if c.type == "duration" || c.type == "integration" then
    .ok Option.none
  else if c.type == "mirror" then
    mirrorBranch c
  else
    .ok (some (textVal c.text))

/-- One step of `parse_value` given the recursive parser for referenced
columns.  The formula test is hoisted in front of the other `elif`
branches; this is behaviour-preserving because every branch of the
dispatch is guarded by a type-string comparison and the type strings
are pairwise distinct, and a `formula` column without a
`display_value` key falls through to the default branch exactly as in
the source. -/
def parseBody (pv : Column → ColMap → PResult) (c0 : Column) (m : ColMap) : PResult :=
  if guardCond c0 then .ok c0 m
  else
    let c := preDecode c0
    if c.type == "formula" && c.display_value.isSome then formulaBranch pv c m
    else
      match simpleBranch c with
      | .error e => .exn e
      | .ok Option.none => .ok c m
      | .ok (some v) => .ok (setVal c v) m

/-- `MondayService.parse_value`, fuel-indexed: fuel `n + 1` executes the
body, handing fuel `n` to recursive resolution of referenced
columns. -/
def parse_value : Nat → Column → ColMap → PResult
  | 0, _, _ => .nofuel
  | n + 1, c, m => parseBody (parse_value n) c m

/-! ## `parse_item_column_values` -/

/-- `UNSUPPORTED_MONDAY_COLUMN_TYPES` from
`common/services/constants.py`. -/
def UNSUPPORTED_MONDAY_COLUMN_TYPES : List String :=
  ["formula", "autonumber", "columns-battery", "button"]

/-- One raw item payload. -/
structure Item where
  id : String
  name : String
  column_values : List Column

/-- Result of normalizing one item. -/
inductive IResult where
  | ok (cs : List Column)
  | exn (e : String)
  | nofuel

/-- Result of the filtered parsing comprehension. -/
inductive ProcResult where
  | ok (cs : List Column) (m : ColMap)
  | exn (e : String)
  | nofuel

/-- The comprehension
`[parse_value(v, map) for v in columns if type not unsupported]`:
columns of unsupported type are skipped entirely; each parsed record is
written back into the map (the map entry is the parsed dict object in
CPython).  `ColumnValue.model_validate` is modelled as the identity on
well-shaped records. -/
def processColumns (pv : Column → ColMap → PResult) :
    List Column → ColMap → ProcResult
  | [], m => .ok [] m
  | c :: rest, m =>
    if UNSUPPORTED_MONDAY_COLUMN_TYPES.contains c.type then processColumns pv rest m
    else
      match pv c m with
      | .nofuel => .nofuel
      | .exn e => .exn e
      | .ok c2 m2 =>
        match processColumns pv rest (minsert m2 c.id c2) with
        | .ok cs mf => .ok (c2 :: cs) mf
        | .exn e => .exn e
        | .nofuel => .nofuel

/-- `column_values_by_column_id` built from the full unfiltered column
list. -/
def buildMap (cols : List Column) : ColMap :=
  cols.foldl (fun m c => minsert m c.id c) []

/-- The synthetic name column prepended by
`parse_item_column_values`. -/
def nameColumn (nm : String) : Column :=
  { id := "name", type := "name", text := some nm, value := .str nm,
    column := { title := "Item Name", settings_str := Option.none },
    display_value := Option.none, checked := Option.none, mirrored_items := Option.none }

/-- The synthetic id column prepended by `parse_item_column_values`
(`value = int(item["id"])`, `text = item["id"]`). -/
def idColumn (ids : String) (k : Int) : Column :=
  { id := "id", type := "item_id", text := some ids, value := .int k,
    column := { title := "Item ID", settings_str := Option.none },
    display_value := Option.none, checked := Option.none, mirrored_items := Option.none }

/-- `MondayService.parse_item_column_values`: build the map from the
full column list, parse the supported columns, then insert the
synthetic name column and then the synthetic id column at the front
(final order: id, name, parsed columns). -/
def parse_item_column_values (fuel : Nat) (item : Item) : IResult :=
  let m := buildMap item.column_values
  match processColumns (parse_value fuel) item.column_values m with
  | .exn e => .exn e
  | .nofuel => .nofuel
  | .ok cs _ =>
    match pyIntOfString item.id with
    | Option.none => .exn "ValueError: invalid literal for int() with base 10"
    | some k => .ok (idColumn item.id k :: nameColumn item.name :: cs)

/-! ## Frame lemmas

`parse_value` only ever assigns to the `value` field of column records:
erasing the `value` field is invariant under parsing, both for the
parsed column and for every record of the column map. -/

/-- A column with its `value` field blanked: the part of a record that
an assignment to `value` cannot touch. -/
def eraseValue (c : Column) : Column := { c with value := .none }

/-- A column map with every `value` field blanked. -/
def mapNoValue (m : ColMap) : ColMap :=
  m.map (fun p => (p.1, eraseValue p.2))

/-- A parser respects the frame when a successful parse preserves
everything but `value` fields, in the parsed column and in the map. -/
def Frame (pv : Column → ColMap → PResult) : Prop :=
  ∀ c m c' m', pv c m = .ok c' m' →
    eraseValue c' = eraseValue c ∧ mapNoValue m' = mapNoValue m

theorem eraseValue_setVal (c : Column) (v : PyVal) :
    eraseValue (setVal c v) = eraseValue c := rfl

theorem eraseValue_preDecode (c : Column) :
    eraseValue (preDecode c) = eraseValue c := by
  unfold preDecode
  split
  · split
    · split
      · rfl
      · rfl
    · rfl
  · rfl

theorem type_preDecode (c : Column) : (preDecode c).type = c.type := by
  have h := eraseValue_preDecode c
  have := congrArg Column.type h
  simpa [eraseValue] using this

theorem type_eq_of_eraseValue {a b : Column} (h : eraseValue a = eraseValue b) :
    a.type = b.type := by
  have := congrArg Column.type h
  simpa [eraseValue] using this

/-- Maps with equal skeletons agree on lookups up to `value`. -/
theorem mfind_map_eraseValue (m m' : ColMap) (h : mapNoValue m' = mapNoValue m)
    (k : String) :
    (mfind m' k).map eraseValue = (mfind m k).map eraseValue := by
  induction m generalizing m' with
  | nil =>
    cases m' with
    | nil => rfl
    | cons q rest' => simp [mapNoValue] at h
  | cons p rest ih =>
    cases m' with
    | nil => simp [mapNoValue] at h
    | cons q rest' =>
      obtain ⟨pk, pc⟩ := p
      obtain ⟨qk, qc⟩ := q
      simp only [mapNoValue, List.map, List.cons.injEq, Prod.mk.injEq] at h
      obtain ⟨⟨hk, hv⟩, ht⟩ := h
      subst hk
      simp only [mfind]
      split
      · simp [hv]
      · exact ih rest' ht

/-- Inserting a skeleton-equal record at an existing key does not
change the skeleton of the map. -/
theorem mapNoValue_minsert (m : ColMap) (k : String) (c d : Column)
    (hf : mfind m k = some d) (he : eraseValue c = eraseValue d) :
    mapNoValue (minsert m k c) = mapNoValue m := by
  induction m with
  | nil => simp [mfind] at hf
  | cons p rest ih =>
    obtain ⟨pk, pc⟩ := p
    simp only [mfind] at hf
    simp only [minsert]
    split
    · rename_i hpk
      rw [if_pos hpk] at hf
      cases hf
      simp [mapNoValue, he]
    · rename_i hpk
      rw [if_neg hpk] at hf
      simp [mapNoValue] at ih ⊢
      exact ih hf

/-- The substituted map of a substitution-loop result, when the loop
ran to completion or aborted. -/
def substMapOf : SubstRes → Option ColMap
  | .done _ m => some m
  | .abort m => some m
  | .exn _ => Option.none
  | .nofuel => Option.none

/-- The substitution loop preserves the skeleton of the map. -/
theorem substLoop_frame (pv : Column → ColMap → PResult) (hpv : Frame pv) :
    ∀ (names : List String) (f : String) (m m₂ : ColMap),
      substMapOf (substLoop pv names f m) = some m₂ →
      mapNoValue m₂ = mapNoValue m := by
  intro names
  induction names with
  | nil =>
    intro f m m₂ h
    simp only [substLoop, substMapOf, Option.some.injEq] at h
    rw [h]
  | cons nm rest ih =>
    intro f m m₂ h
    simp only [substLoop] at h
    split at h
    · simp only [substMapOf, Option.some.injEq] at h
      rw [h]
    · rename_i fc hf
      split at h
      · simp [substMapOf] at h
      · simp [substMapOf] at h
      · rename_i fc2 m2 hpvr
        split at h
        · simp [substMapOf] at h
        · rename_i rv hrv
          obtain ⟨hec, hem⟩ := hpv fc m fc2 m2 hpvr
          have hrec := ih _ _ _ h
          have hfind : (mfind m2 nm).map eraseValue = (mfind m nm).map eraseValue :=
            mfind_map_eraseValue m m2 hem nm
          rw [hf] at hfind
          cases hf2 : mfind m2 nm with
          | none => rw [hf2] at hfind; simp at hfind
          | some d =>
            rw [hf2] at hfind
            simp only [Option.map_some', Option.some.injEq] at hfind
            have hins := mapNoValue_minsert m2 nm fc2 d hf2 (by rw [hec, hfind])
            rw [hrec, hins, hem]

/-- `finishFormula` preserves the frame given the substitution-loop
result it consumes. -/
theorem finishFormula_frame (c : Column) (r : SubstRes) (c' : Column) (m m' : ColMap)
    (hr : ∀ m₂, substMapOf r = some m₂ → mapNoValue m₂ = mapNoValue m)
    (h : finishFormula c r = .ok c' m') :
    eraseValue c' = eraseValue c ∧ mapNoValue m' = mapNoValue m := by
  cases r with
  | done f m₂ =>
    have hm := hr m₂ rfl
    simp only [finishFormula] at h
    cases hev : simple_eval (remove_single_element_brackets (fixEquals f)) with
    | ok v =>
      rw [hev] at h
      cases h
      exact ⟨eraseValue_setVal _ _, hm⟩
    | error e =>
      rw [hev] at h
      dsimp only at h
      by_cases hfd : containsSubstr "float division by zero" e = true
      · rw [if_pos hfd] at h
        cases h
        exact ⟨eraseValue_setVal _ _, hm⟩
      · rw [if_neg hfd] at h
        cases h
        exact ⟨rfl, hm⟩
  | abort m₂ =>
    have hm := hr m₂ rfl
    simp only [finishFormula] at h
    cases h
    exact ⟨rfl, hm⟩
  | exn e => simp [finishFormula] at h
  | nofuel => simp [finishFormula] at h

/-- The formula branch preserves the frame. -/
theorem formulaBranch_frame (pv : Column → ColMap → PResult) (hpv : Frame pv)
    (c : Column) (m : ColMap) (c' : Column) (m' : ColMap)
    (h : formulaBranch pv c m = .ok c' m') :
    eraseValue c' = eraseValue c ∧ mapNoValue m' = mapNoValue m := by
  unfold formulaBranch at h
  split at h
  · cases h; exact ⟨rfl, rfl⟩
  · rename_i dv hdv
    split at h
    · cases h; exact ⟨eraseValue_setVal _ _, rfl⟩
    · split at h
      · cases h
      · cases h; exact ⟨eraseValue_setVal _ _, rfl⟩
      · rename_i fs names hplan
        have := finishFormula_frame (setVal c dv)
          (substLoop pv names fs m) c' m m'
          (fun m₂ hm₂ => substLoop_frame pv hpv names fs m m₂ hm₂) h
        exact ⟨by rw [this.1]; rfl, this.2⟩

/-- One step of the parser preserves the frame. -/
theorem parseBody_frame (pv : Column → ColMap → PResult) (hpv : Frame pv) :
    Frame (parseBody pv) := by
  intro c m c' m' h
  unfold parseBody at h
  split at h
  · cases h; exact ⟨rfl, rfl⟩
  · dsimp only at h
    split at h
    · have := formulaBranch_frame pv hpv (preDecode c) m c' m' h
      exact ⟨by rw [this.1]; exact eraseValue_preDecode c, this.2⟩
    · cases hs : simpleBranch (preDecode c) with
      | error e => rw [hs] at h; cases h
      | ok vo =>
        rw [hs] at h
        cases vo with
        | none => cases h; exact ⟨eraseValue_preDecode c, rfl⟩
        | some v =>
          cases h
          exact ⟨by rw [eraseValue_setVal]; exact eraseValue_preDecode c, rfl⟩

/-- `parse_value` preserves the frame at every fuel. -/
theorem parse_value_frame (n : Nat) : Frame (parse_value n) := by
  induction n with
  | zero => intro c m c' m' h; simp [parse_value] at h
  | succ n ih =>
    intro c m c' m' h
    exact parseBody_frame (parse_value n) ih c m c' m' h

/-- A successful parse preserves the column type. -/
theorem parse_value_type (n : Nat) (c : Column) (m : ColMap) (c' : Column)
    (m' : ColMap) (h : parse_value n c m = .ok c' m') : c'.type = c.type :=
  type_eq_of_eraseValue (parse_value_frame n c m c' m' h).1

/-! ## Recursion-depth lemmas

Only the formula branch re-enters `parse_value`; any map without
formula-typed records therefore bounds the recursion depth at one. -/

/-- No record of the map is a formula column. -/
def NoFormulaMap (m : ColMap) : Prop := ∀ p ∈ m, p.2.type ≠ "formula"

/-- `mfind` returns members of the map. -/
theorem mfind_mem (m : ColMap) (k : String) (c : Column)
    (h : mfind m k = some c) : ∃ k', (k', c) ∈ m := by
  induction m with
  | nil => simp [mfind] at h
  | cons p rest ih =>
    obtain ⟨pk, pc⟩ := p
    simp only [mfind] at h
    split at h
    · cases h
      exact ⟨pk, List.mem_cons_self _ _⟩
    · obtain ⟨k', hk'⟩ := ih h
      exact ⟨k', List.mem_cons_of_mem _ hk'⟩

/-- Skeleton-equal maps carry the same types. -/
theorem NoFormulaMap_of_mapNoValue (m m' : ColMap)
    (h : mapNoValue m' = mapNoValue m) (hm : NoFormulaMap m) : NoFormulaMap m' := by
  induction m generalizing m' with
  | nil =>
    cases m' with
    | nil => exact hm
    | cons q rest' => simp [mapNoValue] at h
  | cons p rest ih =>
    cases m' with
    | nil => intro p hp; cases hp
    | cons q rest' =>
      obtain ⟨pk, pc⟩ := p
      obtain ⟨qk, qc⟩ := q
      simp only [mapNoValue, List.map, List.cons.injEq, Prod.mk.injEq] at h
      obtain ⟨⟨hk, hv⟩, ht⟩ := h
      intro r hr
      cases hr with
      | head =>
        have htype : qc.type = pc.type := type_eq_of_eraseValue hv
        have := hm (pk, pc) (List.mem_cons_self _ _)
        simpa [htype] using this
      | tail _ hr' =>
        exact ih rest' ht (fun r' hr'' => hm r' (List.mem_cons_of_mem _ hr'')) r hr'

/-- Inserting a non-formula record preserves `NoFormulaMap`. -/
theorem NoFormulaMap_minsert (m : ColMap) (k : String) (c : Column)
    (hm : NoFormulaMap m) (hc : c.type ≠ "formula") :
    NoFormulaMap (minsert m k c) := by
  induction m with
  | nil =>
    intro p hp
    simp only [minsert, List.mem_singleton] at hp
    rw [hp]
    exact hc
  | cons q rest ih =>
    obtain ⟨qk, qc⟩ := q
    simp only [minsert]
    split
    · intro p hp
      cases hp with
      | head => exact hc
      | tail _ hp' => exact hm p (List.mem_cons_of_mem _ hp')
    · intro p hp
      cases hp with
      | head => exact hm (qk, qc) (List.mem_cons_self _ _)
      | tail _ hp' =>
        exact ih (fun r hr => hm r (List.mem_cons_of_mem _ hr)) p hp'

/-- The dispatch on a non-formula column never consumes recursion
fuel: no branch but the formula branch calls the recursive parser. -/
theorem parseBody_ne_nofuel_of_not_formula (pv : Column → ColMap → PResult)
    (c : Column) (m : ColMap) (hc : c.type ≠ "formula") :
    parseBody pv c m ≠ .nofuel := by
  intro h
  unfold parseBody at h
  split at h
  · cases h
  · dsimp only at h
    split at h
    · rename_i hcond
      rw [Bool.and_eq_true] at hcond
      have := hcond.1
      rw [beq_iff_eq, type_preDecode] at this
      exact hc this
    · split at h <;> cases h

/-- `finishFormula` never introduces fuel exhaustion. -/
theorem finishFormula_ne_nofuel (c : Column) (r : SubstRes) (hr : r ≠ .nofuel) :
    finishFormula c r ≠ .nofuel := by
  intro h
  cases r with
  | done f m₂ =>
    simp only [finishFormula] at h
    cases hev : simple_eval (remove_single_element_brackets (fixEquals f)) with
    | ok v => rw [hev] at h; cases h
    | error e =>
      rw [hev] at h
      dsimp only at h
      by_cases hfd : containsSubstr "float division by zero" e = true
      · rw [if_pos hfd] at h; cases h
      · rw [if_neg hfd] at h; cases h
  | abort m₂ => simp [finishFormula] at h
  | exn e => simp [finishFormula] at h
  | nofuel => exact hr rfl

/-- The substitution loop terminates (no fuel exhaustion) whenever the
map holds no formula column and the recursive parser terminates on
non-formula columns. -/
theorem substLoop_ne_nofuel (pv : Column → ColMap → PResult) (hframe : Frame pv)
    (hpv : ∀ fc m', fc.type ≠ "formula" → pv fc m' ≠ .nofuel) :
    ∀ (names : List String) (f : String) (m : ColMap), NoFormulaMap m →
      substLoop pv names f m ≠ .nofuel := by
  intro names
  induction names with
  | nil => intro f m _ h; simp [substLoop] at h
  | cons nm rest ih =>
    intro f m hm h
    simp only [substLoop] at h
    split at h
    · cases h
    · rename_i fc hf
      obtain ⟨k', hk'⟩ := mfind_mem m nm fc hf
      have hfc : fc.type ≠ "formula" := hm (k', fc) hk'
      split at h
      · exact hpv fc m hfc (by assumption)
      · cases h
      · rename_i fc2 m2 hpvr
        split at h
        · cases h
        · rename_i rv hrv
          obtain ⟨hec, hem⟩ := hframe fc m fc2 m2 hpvr
          have hm2 : NoFormulaMap m2 := NoFormulaMap_of_mapNoValue m m2 hem hm
          have hfc2 : fc2.type ≠ "formula" := by
            rw [type_eq_of_eraseValue hec]
            exact hfc
          exact ih _ _ (NoFormulaMap_minsert m2 nm fc2 hm2 hfc2) h

/-- With one unit of fuel, parsing any non-formula column cannot run
out of fuel. -/
theorem parse_value_one_ne_nofuel (c : Column) (m : ColMap)
    (hc : c.type ≠ "formula") : parse_value 1 c m ≠ .nofuel :=
  parseBody_ne_nofuel_of_not_formula (parse_value 0) c m hc

/-- Overwriting the value after the JSON pre-decode equals overwriting
it directly. -/
theorem setVal_preDecode (c : Column) (v : PyVal) :
    setVal (preDecode c) v = setVal c v := by
  unfold preDecode
  split
  · split
    · split
      · rfl
      · rfl
    · rfl
  · rfl

/-- Display value and settings are untouched by the pre-decode. -/
theorem display_preDecode (c : Column) :
    (preDecode c).display_value = c.display_value := by
  unfold preDecode
  split
  · split
    · split
      · rfl
      · rfl
    · rfl
  · rfl

theorem settings_preDecode (c : Column) :
    (preDecode c).column = c.column := by
  unfold preDecode
  split
  · split
    · split
      · rfl
      · rfl
    · rfl
  · rfl

theorem mirrored_preDecode (c : Column) :
    (preDecode c).mirrored_items = c.mirrored_items := by
  unfold preDecode
  split
  · split
    · split
      · rfl
      · rfl
    · rfl
  · rfl

theorem text_preDecode (c : Column) : (preDecode c).text = c.text := by
  unfold preDecode
  split
  · split
    · split
      · rfl
      · rfl
    · rfl
  · rfl

/-- When the passthrough guard does not fire and the column is not a
formula column, `parse_value` is the plain dispatch on the pre-decoded
column. -/
theorem parse_value_simple (n : Nat) (c : Column) (m : ColMap)
    (hg : guardCond c = false) (hty : c.type ≠ "formula") :
    parse_value (n + 1) c m =
      (match simpleBranch (preDecode c) with
       | .error e => .exn e
       | .ok Option.none => .ok (preDecode c) m
       | .ok (some v) => .ok (setVal c v) m) := by
  show parseBody (parse_value n) c m = _
  unfold parseBody
  rw [hg]
  simp only [Bool.false_eq_true, if_false]
  have hcond : ((preDecode c).type == "formula" && (preDecode c).display_value.isSome)
      = false := by
    rw [Bool.and_eq_false_iff]
    left
    rw [type_preDecode]
    simp [hty]
  rw [hcond]
  simp only [Bool.false_eq_true, if_false]
  cases simpleBranch (preDecode c) with
  | error e => rfl
  | ok vo =>
    cases vo with
    | none => rfl
    | some v => dsimp only; rw [setVal_preDecode]

/-- The dispatch routes a mirror column to the mirror branch. -/
theorem simpleBranch_mirror (c : Column) (h : c.type = "mirror") :
    simpleBranch c = mirrorBranch c := by
  unfold simpleBranch
  rw [h]
  simp

/-- Every type string with a dedicated branch of the dispatch (the
formula branch included). -/
def dispatchTypes : List String :=
  ["rating", "auto_number", "vote", "checkbox", "date", "dependency",
   "board_relation", "subtasks", "dropdown", "tags", "people", "file", "link",
   "numbers", "creation_log", "last_updated", "duration", "integration",
   "formula", "mirror"]

/-- Columns of a type with no dedicated branch take the default
passthrough `value = text`. -/
theorem simpleBranch_default (c : Column) (h : c.type ∉ dispatchTypes) :
    simpleBranch c = .ok (some (textVal c.text)) := by
  simp only [dispatchTypes, List.mem_cons, not_or, List.not_mem_nil] at h
  obtain ⟨h1, h2, h3, h4, h5, h6, h7, h8, h9, h10, h11, h12, h13, h14, h15, h16,
    h17, h18, h19, h20, -⟩ := h
  unfold simpleBranch
  simp [h1, h2, h3, h4, h5, h6, h7, h8, h9, h10, h11, h12, h13, h14, h15, h16,
    h17, h18, h19, h20]

/-- Members of the parsed output of the comprehension take their type
from a supported input column. -/
theorem processColumns_types (pv : Column → ColMap → PResult) (hpv : Frame pv) :
    ∀ (cols : List Column) (m : ColMap) (cs : List Column) (mf : ColMap),
      processColumns pv cols m = .ok cs mf →
      ∀ c' ∈ cs, ∃ c ∈ cols, c'.type = c.type ∧
        UNSUPPORTED_MONDAY_COLUMN_TYPES.contains c.type = false := by
  intro cols
  induction cols with
  | nil =>
    intro m cs mf h c' hc'
    simp only [processColumns] at h
    cases h
    cases hc'
  | cons c rest ih =>
    intro m cs mf h c' hc'
    simp only [processColumns] at h
    by_cases hsupp : UNSUPPORTED_MONDAY_COLUMN_TYPES.contains c.type = true
    · rw [if_pos hsupp] at h
      obtain ⟨d, hd, hdt⟩ := ih m cs mf h c' hc'
      exact ⟨d, List.mem_cons_of_mem _ hd, hdt⟩
    · rw [if_neg hsupp] at h
      cases hpvr : pv c m with
      | nofuel => rw [hpvr] at h; cases h
      | exn e => rw [hpvr] at h; cases h
      | ok c2 m2 =>
        rw [hpvr] at h
        dsimp only at h
        cases hrest : processColumns pv rest (minsert m2 c.id c2) with
        | nofuel => rw [hrest] at h; cases h
        | exn e => rw [hrest] at h; cases h
        | ok cs2 mf2 =>
          rw [hrest] at h
          dsimp only at h
          cases h
          cases hc' with
          | head =>
            refine ⟨c, List.mem_cons_self _ _, ?_, ?_⟩
            · exact type_eq_of_eraseValue (hpv _ _ _ _ hpvr).1
            · simpa using hsupp
          | tail _ hc'' =>
            obtain ⟨d, hd, hdt⟩ := ih _ _ _ hrest c' hc''
            exact ⟨d, List.mem_cons_of_mem _ hd, hdt⟩

/-! ## Specification-side aggregation

Two renderings of the mirror-aggregation contract, to be compared with
the `mirror_aggregate` chain embedded from the source. -/

/-- Modelled from the spec (the wording of claim C4, unamended): the
aggregate of the comma-split, float-coerced non-empty tokens of
`display_value` — sum, mean, extrema and median of those tokens; count
is the token count (not float-coerced).  `Option.none` marks inputs the
claim leaves undefined (malformed tokens, empty aggregand). -/
def specClaimAggregate (f s : String) : Option PyVal :=
  let tokens := pySplit s ", "
  match (tokens.filter (fun v => pyStrip v ≠ "")).mapM
      (fun v => pyFloatOfString (pyStrip v)) with
  | Option.none => Option.none
  | some qs =>
    if f == "sum" then some (.float (qs.foldl (· + ·) 0))
    else if f == "average" then
      (match qs with
       | [] => Option.none
       | _ :: _ => some (.float ((qs.foldl (· + ·) 0) / (qs.length : Rat))))
    else if f == "min" then
      (match qs with | [] => Option.none | q :: r => some (.float (r.foldl min q)))
    else if f == "max" then
      (match qs with | [] => Option.none | q :: r => some (.float (r.foldl max q)))
    else if f == "count" then some (.int tokens.length)
    else if f == "median" then
      (match qs with | [] => Option.none | q :: r => some (.float (ratMedian (q :: r))))
    else Option.none

/-- Modelled from the spec as amended by the average counterexample:
`average` divides the sum of the float-coerced non-empty tokens by the
total number of comma-split tokens (blank tokens included), `count`
counts all comma-split tokens, the empty sum is integer `0`, and
sum/min/max/median aggregate the non-empty tokens. -/
def specAmendedAggregate (f s : String) : Option PyVal :=
  let tokens := pySplit s ", "
  match (tokens.filter (fun v => pyStrip v ≠ "")).mapM
      (fun v => pyFloatOfString (pyStrip v)) with
  | Option.none => Option.none
  | some qs =>
    if f == "sum" then
      some (match qs with
            | [] => .int 0
            | q :: r => .float ((q :: r).foldl (· + ·) 0))
    else if f == "average" then
      some (.float ((qs.foldl (· + ·) 0) / (tokens.length : Rat)))
    else if f == "min" then
      (match qs with | [] => Option.none | q :: r => some (.float (r.foldl min q)))
    else if f == "max" then
      (match qs with | [] => Option.none | q :: r => some (.float (r.foldl max q)))
    else if f == "count" then some (.int tokens.length)
    else if f == "median" then
      (match qs with | [] => Option.none | q :: r => some (.float (ratMedian (q :: r))))
    else Option.none

/-- The embedded mirror aggregation refines the amended specification
aggregate on the defined inputs. -/
theorem mirror_aggregate_amended_spec (f s : String) (v : PyVal)
    (hf : f ∈ (["sum", "average", "min", "max", "count", "median"] : List String))
    (hv : specAmendedAggregate f s = some v) :
    mirror_aggregate (some (.str f)) (some (.str s)) = .ok v := by
  simp only [List.mem_cons, List.not_mem_nil, or_false] at hf
  unfold specAmendedAggregate at hv
  dsimp only at hv
  unfold mirror_aggregate displayTokens floatsOf
  rcases hf with rfl | rfl | rfl | rfl | rfl | rfl <;>
    simp only [String.reduceBEq, beq_self_eq_true, if_true, reduceIte] <;>
    split at hv
  all_goals try exact Option.noConfusion hv
  all_goals rename_i qs heq
  all_goals rw [heq]
  all_goals simp only [String.reduceBEq, beq_self_eq_true, if_true, reduceIte] at hv
  all_goals try (cases qs)
  all_goals simp_all

/-! ## Result extractors for concrete evaluations -/

/-- A fallback column (never the result of a successful parse in the
concrete evaluations below). -/
def emptyColumn : Column :=
  { id := "", type := "", text := Option.none, value := .none,
    column := { title := "", settings_str := Option.none },
    display_value := Option.none, checked := Option.none, mirrored_items := Option.none }

/-- The parsed column of a successful `parse_value` result. -/
def pOkCol : PResult → Column
  | .ok c _ => c
  | _ => emptyColumn

/-- The updated map of a successful `parse_value` result. -/
def pOkMap : PResult → ColMap
  | .ok _ m => m
  | _ => []

/-- The output list of a successful `parse_item_column_values`. -/
def iOkCols : IResult → List Column
  | .ok cs => cs
  | _ => []

/-- The substituted formula of a completed substitution loop. -/
def sDoneStr : SubstRes → String
  | .done f _ => f
  | _ => ""

/-- The map of a completed substitution loop. -/
def sDoneMap : SubstRes → ColMap
  | .done _ m => m
  | _ => []

/-- With two units of fuel, parsing any column over a formula-free map
cannot run out of fuel: recursion is re-entered at most once. -/
theorem parse_value_two_ne_nofuel (c : Column) (m : ColMap)
    (hm : NoFormulaMap m) : parse_value 2 c m ≠ .nofuel := by
  intro h
  have hbody : parseBody (parse_value 1) c m = .nofuel := h
  unfold parseBody at hbody
  split at hbody
  · cases hbody
  · dsimp only at hbody
    split at hbody
    · -- formula branch: the recursion is into the formula-free map
      unfold formulaBranch at hbody
      split at hbody
      · cases hbody
      · rename_i dv hdv
        split at hbody
        · cases hbody
        · split at hbody
          · cases hbody
          · cases hbody
          · rename_i fs names hplan
            exact finishFormula_ne_nofuel _ _
              (substLoop_ne_nofuel (parse_value 1) (parse_value_frame 1)
                (fun fc m' hfc => parse_value_one_ne_nofuel fc m' hfc)
                names fs m hm) hbody
    · split at hbody <;> cases hbody

/-! ## Branch-entry lemmas -/

theorem setVal_setVal (c : Column) (v w : PyVal) :
    setVal (setVal c v) w = setVal c w := rfl

theorem formulaPlan_preDecode (c : Column) :
    formulaPlan (preDecode c) = formulaPlan c := by
  unfold formulaPlan
  rw [settings_preDecode]

theorem mirrorSettingsStr_preDecode (c : Column) :
    mirrorSettingsStr (preDecode c) = mirrorSettingsStr c := by
  unfold mirrorSettingsStr
  rw [settings_preDecode]

/-- The guard never fires on a column whose type is carved out of it
(`formula`, `mirror`, and the dead `votes` tag). -/
theorem guardCond_false_of_guardType (c : Column)
    (h : guardTypes.contains c.type = true) : guardCond c = false := by
  unfold guardCond
  rw [h]
  simp

/-- Entering the formula branch: a formula-typed column carrying a
`display_value` key routes there after the pre-decode. -/
theorem parse_value_formula (n : Nat) (c : Column) (m : ColMap)
    (ht : c.type = "formula") (hd : c.display_value.isSome = true) :
    parse_value (n + 1) c m = formulaBranch (parse_value n) (preDecode c) m := by
  show parseBody (parse_value n) c m = _
  unfold parseBody
  rw [guardCond_false_of_guardType c (by rw [ht]; decide)]
  simp only [Bool.false_eq_true, if_false]
  have hcond : ((preDecode c).type == "formula" && (preDecode c).display_value.isSome)
      = true := by
    rw [type_preDecode, display_preDecode, ht, hd]
    rfl
  rw [hcond]
  simp only [if_true]

/-- A formula column with the `"null"` display sentinel and an
extractable formula reduces to the substitution loop followed by
`finishFormula`. -/
theorem parse_value_formula_null (n : Nat) (c : Column) (m : ColMap)
    (fs : String) (names : List String)
    (ht : c.type = "formula") (hdv : c.display_value = some (.str "null"))
    (hplan : formulaPlan c = .ok (some (fs, names))) :
    parse_value (n + 1) c m =
      finishFormula (setVal c (.str "null"))
        (substLoop (parse_value n) names fs m) := by
  rw [parse_value_formula n c m ht (by rw [hdv]; rfl)]
  unfold formulaBranch
  rw [display_preDecode, hdv]
  dsimp only
  rw [show (!isNullStr (.str "null")) = false from rfl]
  simp only [Bool.false_eq_true, if_false]
  rw [formulaPlan_preDecode, hplan]
  dsimp only
  rw [setVal_preDecode]

/-! ## Concrete columns, maps and items used in the claim analyses -/

/-- A vote column with falsy value and empty text. -/
def voteEmpty : Column :=
  { id := "v", type := "vote", text := some "", value := .none,
    column := { title := "Votes", settings_str := Option.none },
    display_value := Option.none, checked := Option.none, mirrored_items := Option.none }

/-- A second empty vote column (guard-identity witness input). -/
def voteEmpty2 : Column :=
  { id := "w", type := "vote", text := some "", value := .none,
    column := { title := "Votes", settings_str := Option.none },
    display_value := Option.none, checked := Option.none, mirrored_items := Option.none }

/-- A numbers column with non-numeric text. -/
def numbersBad : Column :=
  { id := "n", type := "numbers", text := some "1a", value := .none,
    column := { title := "Number", settings_str := Option.none },
    display_value := Option.none, checked := Option.none, mirrored_items := Option.none }

/-- An unknown-type column (status) with truthy value. -/
def statusCol : Column :=
  { id := "s", type := "status", text := some "Done", value := .str "x",
    column := { title := "Status", settings_str := Option.none },
    display_value := Option.none, checked := Option.none, mirrored_items := Option.none }

/-- A numbers column reading `10`. -/
def numTen : Column :=
  { id := "a", type := "numbers", text := some "10", value := .none,
    column := { title := "A", settings_str := Option.none },
    display_value := Option.none, checked := Option.none, mirrored_items := Option.none }

/-- A numbers column reading `0` (integer). -/
def numZeroInt : Column :=
  { id := "b", type := "numbers", text := some "0", value := .none,
    column := { title := "B", settings_str := Option.none },
    display_value := Option.none, checked := Option.none, mirrored_items := Option.none }

/-- A numbers column reading `0.0` (float). -/
def numZeroFloat : Column :=
  { id := "b", type := "numbers", text := some "0.0", value := .none,
    column := { title := "B", settings_str := Option.none },
    display_value := Option.none, checked := Option.none, mirrored_items := Option.none }

/-- A numbers column reading `3`. -/
def numThree : Column :=
  { id := "a", type := "numbers", text := some "3", value := .none,
    column := { title := "A", settings_str := Option.none },
    display_value := Option.none, checked := Option.none, mirrored_items := Option.none }

/-- A formula column dividing two referenced columns, with the
`"null"` display sentinel that forces local re-evaluation. -/
def formulaDiv : Column :=
  { id := "f", type := "formula", text := some "", value := .none,
    column := { title := "F",
                settings_str := some "\x7b\"formula\":\"\x7ba\x7d/\x7bb\x7d\"\x7d" },
    display_value := some (.str "null"), checked := Option.none,
    mirrored_items := Option.none }

/-- Map for the integer-zero division scenario. -/
def divMapInt : ColMap := [("f", formulaDiv), ("a", numTen), ("b", numZeroInt)]

/-- Map for the float-zero division scenario. -/
def divMapFloat : ColMap := [("f", formulaDiv), ("a", numTen), ("b", numZeroFloat)]

/-- A formula column referencing only the numbers column `a`. -/
def refFormula : Column :=
  { id := "g", type := "formula", text := some "", value := .none,
    column := { title := "G", settings_str := some "\x7b\"formula\":\"\x7ba\x7d\"\x7d" },
    display_value := some (.str "null"), checked := Option.none,
    mirrored_items := Option.none }

/-- Map of `refFormula` with its sibling `a`. -/
def memoMap : ColMap := [("g", refFormula), ("a", numThree)]

/-- A formula column referencing an id absent from every map used with
it. -/
def formulaMissingRef : Column :=
  { id := "h", type := "formula", text := some "", value := .none,
    column := { title := "H", settings_str := some "\x7b\"formula\":\"\x7bzz\x7d\"\x7d" },
    display_value := some (.str "null"), checked := Option.none,
    mirrored_items := Option.none }

/-- A self-referential formula column (cyclic reference). -/
def selfFormula : Column :=
  { id := "a", type := "formula", text := some "", value := .none,
    column := { title := "Loop", settings_str := some "\x7b\"formula\":\"\x7ba\x7d\"\x7d" },
    display_value := some (.str "null"), checked := Option.none,
    mirrored_items := Option.none }

/-- The one-column cyclic map. -/
def selfMap : ColMap := [("a", selfFormula)]

/-- A formula column referencing the numbers column `n`. -/
def refNFormula : Column :=
  { id := "g9", type := "formula", text := some "", value := .none,
    column := { title := "G9", settings_str := some "\x7b\"formula\":\"\x7bn\x7d\"\x7d" },
    display_value := some (.str "null"), checked := Option.none,
    mirrored_items := Option.none }

/-- A numbers column reading `5`, under id `n`. -/
def numFive : Column :=
  { id := "n", type := "numbers", text := some "5", value := .none,
    column := { title := "N", settings_str := Option.none },
    display_value := Option.none, checked := Option.none, mirrored_items := Option.none }

/-- The formula-free map holding only `numFive`. -/
def numFiveMap : ColMap := [("n", numFive)]

/-- A mirror column with an `average` aggregation over tokens that
include a blank. -/
def mirAvgBlank : Column :=
  { id := "m", type := "mirror", text := some "", value := .none,
    column := { title := "M", settings_str := some "\x7b\"function\":\"average\"\x7d" },
    display_value := some (.str "1, , 2"), checked := Option.none,
    mirrored_items := Option.none }

/-- A mirror column with a `sum` aggregation. -/
def mirSum : Column :=
  { id := "m2", type := "mirror", text := some "", value := .none,
    column := { title := "M2", settings_str := some "\x7b\"function\":\"sum\"\x7d" },
    display_value := some (.str "3, 4, 5"), checked := Option.none,
    mirrored_items := Option.none }

/-- A dependency column with two linked items. -/
def depCol : Column :=
  { id := "d", type := "dependency", text := some "T1, T2",
    value := .dict [("linkedPulseIds",
      .list [.dict [("linkedPulseId", .int 1)], .dict [("linkedPulseId", .int 2)]])],
    column := { title := "Deps", settings_str := Option.none },
    display_value := Option.none, checked := Option.none, mirrored_items := Option.none }

/-- An item with no raw columns. -/
def witnessItem : Item := { id := "7", name := "x", column_values := [] }

/-- A formula-typed raw column (filtered from item output). -/
def itemFormulaCol : Column :=
  { id := "f6", type := "formula", text := Option.none, value := .none,
    column := { title := "F6", settings_str := Option.none },
    display_value := Option.none, checked := Option.none, mirrored_items := Option.none }

/-- An unknown-type raw column that passes through. -/
def itemTextyCol : Column :=
  { id := "t6", type := "texty", text := some "hello", value := .str "v",
    column := { title := "T6", settings_str := Option.none },
    display_value := Option.none, checked := Option.none, mirrored_items := Option.none }

/-- An item carrying one filtered and one passthrough column. -/
def witnessItem6 : Item :=
  { id := "8", name := "y", column_values := [itemFormulaCol, itemTextyCol] }

/-- Divergence of the fuel-indexed parser: every fuel bound is
exhausted (in CPython: the recursion grows until `RecursionError`). -/
def parse_value_diverges (c : Column) (m : ColMap) : Prop :=
  ∀ fuel, parse_value fuel c m = .nofuel

/-- A substitution loop whose first reference resolves to a column the
parser cannot finish propagates the fuel exhaustion. -/
theorem substLoop_head_nofuel (pv : Column → ColMap → PResult) (nm : String)
    (rest : List String) (f : String) (m : ColMap) (fc : Column)
    (hf : mfind m nm = some fc) (h : pv fc m = .nofuel) :
    substLoop pv (nm :: rest) f m = .nofuel := by
  simp only [substLoop]
  rw [hf]
  dsimp only
  rw [h]

/-! ## Claims -/

/-- Claim C1: for every input item whose normalization succeeds, the
output list starts with the two synthetic columns, in fixed order: the
first element is the id column (`type = "item_id"`, integer value,
string text) and the second the name column (`type = "name"`,
`value = text =` item name); and when no raw column reuses the
synthetic type tags, each synthetic type occurs exactly once,
regardless of the order of the input columns. -/
theorem claim1_synthetic_first (n : Nat) (it : Item) (out : List Column)
    (h : parse_item_column_values n it = .ok out) :
    (∃ k rest, pyIntOfString it.id = some k ∧
        out = idColumn it.id k :: nameColumn it.name :: rest) ∧
    ((∀ c ∈ it.column_values, c.type ≠ "item_id" ∧ c.type ≠ "name") →
      (out.filter (fun c => c.type == "item_id")).length = 1 ∧
      (out.filter (fun c => c.type == "name")).length = 1) := by
  unfold parse_item_column_values at h
  dsimp only at h
  cases hpc : processColumns (parse_value n) it.column_values (buildMap it.column_values) with
  | exn e => rw [hpc] at h; cases h
  | nofuel => rw [hpc] at h; cases h
  | ok cs mf =>
    rw [hpc] at h
    dsimp only at h
    cases hk : pyIntOfString it.id with
    | none => rw [hk] at h; cases h
    | some k =>
      rw [hk] at h
      dsimp only at h
      cases h
      refine ⟨⟨k, cs, rfl, rfl⟩, ?_⟩
      intro hno
      have htypes := processColumns_types (parse_value n) (parse_value_frame n)
        _ _ _ _ hpc
      have hid : cs.filter (fun c => c.type == "item_id") = [] := by
        rw [List.filter_eq_nil_iff]
        intro c' hc'
        obtain ⟨d, hd, hdt, -⟩ := htypes c' hc'
        have hni := (hno d hd).1
        simp [hdt, hni]
      have hnm : cs.filter (fun c => c.type == "name") = [] := by
        rw [List.filter_eq_nil_iff]
        intro c' hc'
        obtain ⟨d, hd, hdt, -⟩ := htypes c' hc'
        have hni := (hno d hd).2
        simp [hdt, hni]
      constructor
      · simp [List.filter, idColumn, nameColumn, hid]
      · simp [List.filter, idColumn, nameColumn, hnm]

/-- Witness for C1 at a concrete item. -/
theorem claim1_witness :
    (∃ k rest, pyIntOfString witnessItem.id = some k ∧
        iOkCols (parse_item_column_values 1 witnessItem) =
          idColumn witnessItem.id k :: nameColumn witnessItem.name :: rest) ∧
    ((∀ c ∈ witnessItem.column_values, c.type ≠ "item_id" ∧ c.type ≠ "name") →
      ((iOkCols (parse_item_column_values 1 witnessItem)).filter
          (fun c => c.type == "item_id")).length = 1 ∧
      ((iOkCols (parse_item_column_values 1 witnessItem)).filter
          (fun c => c.type == "name")).length = 1) :=
  claim1_synthetic_first 1 witnessItem _ rfl

/-- Claim C2 counterexample: `parse_value` does raise.  A numbers
column whose text is `"1a"` reaches `int(column["text"])`, which
raises a `ValueError` that no handler catches — there is no
passthrough-on-failure fallback. -/
theorem claim2_counterexample :
    parse_value 1 numbersBad [] =
      .exn "ValueError: invalid literal for int() with base 10" := rfl

/-- Claim C2 as amended: only columns of a type with no dedicated
branch are unconditionally safe — they pass through with
`value = text` (or unchanged under the early guard); typed branches
can raise on malformed input, and only the final `simple_eval` call of
the formula branch is wrapped in a handler. -/
theorem claim2_default_passthrough (n : Nat) (c : Column) (m : ColMap)
    (hty : c.type ∉ dispatchTypes) :
    parse_value (n + 1) c m =
      if guardCond c then .ok c m else .ok (setVal c (textVal c.text)) m := by
  by_cases hg : guardCond c = true
  · rw [if_pos hg]
    show parseBody (parse_value n) c m = _
    unfold parseBody
    rw [hg]
    simp
  · have hg' : guardCond c = false := by
      revert hg
      cases guardCond c <;> simp
    rw [if_neg hg]
    have hnf : c.type ≠ "formula" := fun hh => hty (by rw [hh]; decide)
    rw [parse_value_simple n c m hg' hnf]
    rw [simpleBranch_default (preDecode c) (by rw [type_preDecode]; exact hty)]
    dsimp only
    rw [text_preDecode]

/-- Witness for the amended C2 at a status column. -/
theorem claim2_witness :
    parse_value 1 statusCol [] =
      if guardCond statusCol then .ok statusCol []
      else .ok (setVal statusCol (textVal statusCol.text)) [] :=
  claim2_default_passthrough 0 statusCol [] (by decide)

/-- Claim C3 counterexample: re-evaluating a formula column mutates
its sibling in the map.  After parsing `refFormula` over `memoMap`,
the record at id `a` carries the memoized parsed value `3` instead of
its raw `None`. -/
theorem claim3_counterexample :
    mfind memoMap "a" = some numThree ∧
    mfind (pOkMap (parse_value 2 refFormula memoMap)) "a" =
      some (setVal numThree (.int 3)) ∧
    (setVal numThree (.int 3)).value ≠ numThree.value :=
  ⟨rfl, rfl, fun hh => PyVal.noConfusion hh⟩

/-- Claim C3 as amended: formula/mirror re-evaluation may rewrite the
`value` field of sibling records in place (memoizing their parsed
values) but never changes any sibling's id, type, text or column
fields, and neither adds nor removes map entries. -/
theorem claim3_sibling_skeletons (n : Nat) (c : Column) (m : ColMap)
    (c' : Column) (m' : ColMap) (h : parse_value n c m = .ok c' m') :
    mapNoValue m' = mapNoValue m :=
  (parse_value_frame n c m c' m' h).2

/-- Witness for the amended C3 on the memoization scenario. -/
theorem claim3_witness :
    mapNoValue (pOkMap (parse_value 2 refFormula memoMap)) = mapNoValue memoMap :=
  claim3_sibling_skeletons 2 refFormula memoMap
    (pOkCol (parse_value 2 refFormula memoMap))
    (pOkMap (parse_value 2 refFormula memoMap)) rfl

/-- Claim C4 counterexample: for a mirror `average` over
`"1, , 2"` the code divides the sum of the non-blank tokens by the
count of all comma-split tokens (three, including the blank), yielding
`1.0`, while the claimed mean of the float-coerced non-empty tokens is
`1.5`. -/
theorem claim4_counterexample :
    parse_value 1 mirAvgBlank [] =
      .ok (setVal mirAvgBlank
        (.dict [("display_value", .float 1), ("mirrored_items", .list [])])) [] ∧
    specClaimAggregate "average" "1, , 2" = some (.float (3 / 2)) ∧
    (1 : Rat) ≠ 3 / 2 :=
  ⟨by with_unfolding_all rfl, by with_unfolding_all rfl, by norm_num⟩

/-- Claim C4 as amended: for every mirror column with a configured
aggregation function, the output `display_value` is the aggregate of
the comma-split tokens with `average` dividing by the total token
count (blanks included) and `count` counting all tokens; sum, min,
max and median aggregate the float-coerced non-empty tokens, and the
empty sum is integer `0`. -/
theorem claim4_mirror_aggregate (n : Nat) (c : Column) (m : ColMap)
    (f s : String) (v : PyVal)
    (ht : c.type = "mirror") (hdv : c.display_value = some (.str s))
    (hsv : ∃ sv, json_loads (mirrorSettingsStr c) = some sv ∧
        dictGetOpt sv "function" = .ok (some (.str f)))
    (hf : f ∈ (["sum", "average", "min", "max", "count", "median"] : List String))
    (hv : specAmendedAggregate f s = some v) :
    parse_value (n + 1) c m =
      .ok (setVal c (.dict [("display_value", v),
        ("mirrored_items",
         match c.mirrored_items with | some w => w | Option.none => .list [])])) m := by
  obtain ⟨sv, hsv1, hfn⟩ := hsv
  have hg : guardCond c = false := guardCond_false_of_guardType c (by rw [ht]; decide)
  have hnf : c.type ≠ "formula" := by rw [ht]; decide
  rw [parse_value_simple n c m hg hnf]
  rw [simpleBranch_mirror (preDecode c) (by rw [type_preDecode, ht])]
  unfold mirrorBranch
  rw [mirrorSettingsStr_preDecode, hsv1]
  dsimp only
  rw [hfn]
  dsimp only
  rw [display_preDecode, hdv, mirror_aggregate_amended_spec f s v hf hv]
  dsimp only
  rw [mirrored_preDecode]

/-- Witness for the amended C4: `sum` over `"3, 4, 5"` yields
`12.0`. -/
theorem claim4_witness :
    parse_value 1 mirSum [] =
      .ok (setVal mirSum (.dict [("display_value", .float 12),
        ("mirrored_items",
         match mirSum.mirrored_items with | some w => w | Option.none => .list [])])) [] :=
  claim4_mirror_aggregate 0 mirSum [] "sum" "3, 4, 5" (.float 12) rfl rfl
    ⟨.dict [("function", .str "sum")], rfl, rfl⟩ (by decide)
    (by with_unfolding_all rfl)

/-- Claim C5 counterexample: a formula dividing by an integer-valued
zero raises `ZeroDivisionError` with message `"division by zero"`,
which the handler's `"float division by zero"` substring test does not
match — the value stays at the `"null"` display sentinel instead of
the claimed `0` (though no exception propagates). -/
theorem claim5_counterexample :
    parse_value 2 formulaDiv divMapInt =
      .ok (setVal formulaDiv (.str "null"))
        (pOkMap (parse_value 2 formulaDiv divMapInt)) ∧
    (setVal formulaDiv (.str "null")).value ≠ .int 0 :=
  ⟨rfl, fun hh => PyVal.noConfusion hh⟩

/-- Claim C5 as amended: a division-by-zero during formula evaluation
yields `0` exactly when the raised message contains
`"float division by zero"` (at least one float operand); in every
evaluation-error case no exception propagates to the caller. -/
theorem claim5_float_div_zero (n : Nat) (c : Column) (m : ColMap)
    (fs : String) (names : List String) (F : String) (m2 : ColMap) (e : String)
    (ht : c.type = "formula") (hdv : c.display_value = some (.str "null"))
    (hplan : formulaPlan c = .ok (some (fs, names)))
    (hsub : substLoop (parse_value n) names fs m = .done F m2)
    (heval : simple_eval (remove_single_element_brackets (fixEquals F)) = .error e)
    (hfloat : containsSubstr "float division by zero" e = true) :
    parse_value (n + 1) c m = .ok (setVal c (.int 0)) m2 := by
  rw [parse_value_formula_null n c m fs names ht hdv hplan, hsub]
  unfold finishFormula
  dsimp only
  rw [heval]
  dsimp only
  rw [if_pos hfloat, setVal_setVal]

/-- Witness for the amended C5: dividing by the float `0.0` yields
`0`. -/
theorem claim5_witness :
    parse_value 2 formulaDiv divMapFloat = .ok (setVal formulaDiv (.int 0))
      (sDoneMap (substLoop (parse_value 1) ["a", "b"] "\x7ba\x7d/\x7bb\x7d" divMapFloat)) :=
  claim5_float_div_zero 1 formulaDiv divMapFloat "\x7ba\x7d/\x7bb\x7d" ["a", "b"]
    (sDoneStr (substLoop (parse_value 1) ["a", "b"] "\x7ba\x7d/\x7bb\x7d" divMapFloat))
    (sDoneMap (substLoop (parse_value 1) ["a", "b"] "\x7ba\x7d/\x7bb\x7d" divMapFloat))
    "float division by zero" rfl rfl rfl (by with_unfolding_all rfl)
    (by with_unfolding_all rfl) (by with_unfolding_all rfl)

/-- Claim C6: no column of an unsupported type (`formula`,
`autonumber`, `columns-battery`, `button`) ever appears in the output
of `parse_item_column_values`, even when present in the input. -/
theorem claim6_unsupported_filtered (n : Nat) (it : Item) (out : List Column)
    (h : parse_item_column_values n it = .ok out) :
    ∀ c ∈ out, c.type ∉ UNSUPPORTED_MONDAY_COLUMN_TYPES := by
  unfold parse_item_column_values at h
  dsimp only at h
  cases hpc : processColumns (parse_value n) it.column_values (buildMap it.column_values) with
  | exn e => rw [hpc] at h; cases h
  | nofuel => rw [hpc] at h; cases h
  | ok cs mf =>
    rw [hpc] at h
    dsimp only at h
    cases hk : pyIntOfString it.id with
    | none => rw [hk] at h; cases h
    | some k =>
      rw [hk] at h
      dsimp only at h
      cases h
      intro c hc
      simp only [List.mem_cons] at hc
      rcases hc with rfl | rfl | hc
      · simp [idColumn, UNSUPPORTED_MONDAY_COLUMN_TYPES]
      · simp [nameColumn, UNSUPPORTED_MONDAY_COLUMN_TYPES]
      · have htypes := processColumns_types (parse_value n) (parse_value_frame n)
          _ _ _ _ hpc
        obtain ⟨d, hd, hdt, hdc⟩ := htypes c hc
        rw [hdt]
        simp only [List.contains] at hdc
        simp at hdc
        exact hdc

/-- Witness for C6 at an item holding a formula column, instantiated
at the first output element. -/
theorem claim6_witness :
    (idColumn "8" 8).type ∉ UNSUPPORTED_MONDAY_COLUMN_TYPES :=
  claim6_unsupported_filtered 1 witnessItem6
    (iOkCols (parse_item_column_values 1 witnessItem6)) rfl
    (idColumn "8" 8) (List.Mem.head _)

/-- Claim C7 counterexample: a vote column with falsy value and empty
text is returned unchanged — value `None`, not the claimed `0` —
because the early guard excludes the tag `"votes"` while the dispatch
tests `"vote"`. -/
theorem claim7_counterexample :
    parse_value 1 voteEmpty [] = .ok voteEmpty [] ∧ voteEmpty.value ≠ .int 0 :=
  ⟨rfl, fun hh => PyVal.noConfusion hh⟩

/-- Claim C7 as amended: when `value` is falsy and `text` is empty or
`None` and the type is not one of `votes`/`formula`/`mirror`, the
column is returned unchanged — and this passthrough includes type
`vote`, so an empty vote column keeps its value instead of becoming
`0` (the `int`-or-`0` vote rule applies only when the value is truthy
or the text non-empty). -/
theorem claim7_vote_guard_identity (n : Nat) (c : Column) (m : ColMap)
    (hv : truthy c.value = false)
    (ht : c.text = some "" ∨ c.text = (Option.none : Option String))
    (hty : guardTypes.contains c.type = false) :
    parse_value (n + 1) c m = .ok c m := by
  have hg : guardCond c = true := by
    unfold guardCond
    rw [hv, hty]
    rcases ht with hh | hh <;> simp [hh]
  show parseBody (parse_value n) c m = _
  unfold parseBody
  rw [hg]
  simp

/-- Witness for the amended C7: the guard identity at an empty vote
column. -/
theorem claim7_witness : parse_value 1 voteEmpty2 [] = .ok voteEmpty2 [] :=
  claim7_vote_guard_identity 0 voteEmpty2 [] rfl (Or.inl rfl) rfl

/-- Claim C8 counterexample: when a referenced id is missing, the
column is not returned with its value unchanged — the formula branch
has already assigned `value = display_value`, leaving the `"null"`
sentinel in place of the raw `None`. -/
theorem claim8_counterexample :
    parse_value 1 formulaMissingRef [] =
      .ok (setVal formulaMissingRef (.str "null")) [] ∧
    (setVal formulaMissingRef (.str "null")).value ≠ formulaMissingRef.value :=
  ⟨rfl, fun hh => PyVal.noConfusion hh⟩

/-- Claim C8 as amended: when the first placeholder of the formula
references an id absent from the map, evaluation aborts before any
substitution or expression evaluation and the column is returned with
`value` equal to the `"null"` display sentinel, all other fields and
the map unchanged. -/
theorem claim8_missing_ref_abort (n : Nat) (c : Column) (m : ColMap)
    (fs : String) (nm : String) (names : List String)
    (ht : c.type = "formula") (hdv : c.display_value = some (.str "null"))
    (hplan : formulaPlan c = .ok (some (fs, nm :: names)))
    (hmiss : mfind m nm = Option.none) :
    parse_value (n + 1) c m = .ok (setVal c (.str "null")) m := by
  rw [parse_value_formula_null n c m fs (nm :: names) ht hdv hplan]
  have hsub : substLoop (parse_value n) (nm :: names) fs m = .abort m := by
    simp only [substLoop]
    rw [hmiss]
  rw [hsub]
  rfl

/-- Witness for the amended C8 over the empty map. -/
theorem claim8_witness :
    parse_value 1 formulaMissingRef [] = .ok (setVal formulaMissingRef (.str "null")) [] :=
  claim8_missing_ref_abort 0 formulaMissingRef [] "\x7bzz\x7d" "zz" [] rfl rfl rfl rfl

/-- Claim C9 counterexample: `parse_value` does not terminate on every
input — a self-referential formula column with the `"null"` display
sentinel recurses without bound (every fuel bound is exhausted; in
CPython the recursion grows until `RecursionError`). -/
theorem claim9_counterexample : parse_value_diverges selfFormula selfMap := by
  intro fuel
  induction fuel with
  | zero => rfl
  | succ n ih =>
    rw [parse_value_formula_null n selfFormula selfMap "\x7ba\x7d" ["a"] rfl rfl rfl]
    rw [substLoop_head_nofuel (parse_value n) "a" [] "\x7ba\x7d" selfMap selfFormula rfl ih]
    rfl

/-- Claim C9 as amended: recursion is entered only through formula
columns, so over any map containing no formula-typed record a single
level of recursion suffices and `parse_value` terminates (fuel `2` is
never exhausted); with cyclically referencing formula columns the
recursion is unbounded, the only abort condition being a missing
id. -/
theorem claim9_no_formula_refs_terminate (c : Column) (m : ColMap)
    (hm : NoFormulaMap m) : parse_value 2 c m ≠ .nofuel :=
  parse_value_two_ne_nofuel c m hm

/-- Witness for the amended C9: a formula column over a formula-free
map. -/
theorem claim9_witness : parse_value 2 refNFormula numFiveMap ≠ .nofuel :=
  claim9_no_formula_refs_terminate refNFormula numFiveMap
    (by
      intro p hp
      simp only [numFiveMap, List.mem_singleton] at hp
      subst hp
      decide)

/-- Claim C10: `parse_value` only ever assigns to `value` fields — a
successful call leaves every other field of the parsed column (id,
type, text, column details, display value, checked, mirrored items)
and of every record in the column map identical. -/
theorem claim10_value_only (n : Nat) (c : Column) (m : ColMap)
    (c' : Column) (m' : ColMap) (h : parse_value n c m = .ok c' m') :
    eraseValue c' = eraseValue c ∧ mapNoValue m' = mapNoValue m :=
  parse_value_frame n c m c' m' h

/-- Witness for C10 at a dependency column with zipped link items. -/
theorem claim10_witness :
    eraseValue (pOkCol (parse_value 1 depCol [])) = eraseValue depCol ∧
    mapNoValue (pOkMap (parse_value 1 depCol [])) = mapNoValue [] :=
  claim10_value_only 1 depCol []
    (pOkCol (parse_value 1 depCol [])) (pOkMap (parse_value 1 depCol [])) rfl

end MondayNorm
